import Mathlib

/-!
# Leader election application (`src/main.c`): embedding and verification

The election loop of `main.c` is embedded as a pure step function over an
explicit record of the program's globals.  Calls into collaborators
(timers, CoAP, broadcast, logging, `msg_reply`) are recorded, in program
order, in a list of `Effect`s.

Modelling conventions
* `ipv6_addr_t` values are natural numbers (the 16 bytes read big-endian);
  `ipv6_addr_cmp` is `memcmp`, i.e. the sign of the numeric comparison.
* `uint8_t` counters are `Nat` with an explicit `% 256` at every increment.
* `float` is IEEE-754 binary32 with round-to-nearest-even, every operation
  rounded to `float` (`FLT_EVAL_METHOD == 0`).  A finite `float` is
  represented by the rational number it denotes.
* `ELECT_NODES_NUM` (from `elect.h`) is the parameter `N`.
* `LOG_DEBUG` lines are not recorded (compiled out at the default log level).
-/

namespace Elect

/-! ## Addresses -/

/-- `ipv6_addr_cmp(a, b)`: negative, zero or positive as `memcmp` is.  An
`ipv6_addr_t` is the natural number its 16 bytes spell big-endian. -/
def ipv6_addr_cmp (a b : Nat) : Int :=
  if a < b then -1 else if b < a then 1 else 0

/-! ## binary32 arithmetic -/

/-- Floor of the base-2 logarithm of `n` (0 for `n ≤ 1`), by halving at most
`fuel` times. -/
def log2Aux : Nat → Nat → Nat
  | 0, _ => 0
  | fuel + 1, n => if 2 ≤ n then log2Aux fuel (n / 2) + 1 else 0

/-- Floor of the base-2 logarithm of `n / d` for positive `n`, `d`. -/
def ilog2 (n d : Nat) : Int :=
  let e : Int := (log2Aux n n : Int) - (log2Aux d d : Int)
  let below : Bool :=
    if 0 ≤ e then decide (n < d * 2 ^ e.toNat) else decide (n * 2 ^ (-e).toNat < d)
  if below then e - 1 else e

/-- Nearest integer to `a / b` (`b > 0`), ties to the even integer. -/
def roundHalfEven (a : Int) (b : Nat) : Int :=
  let f := a / (b : Int)
  let r := a % (b : Int)
  if 2 * r < b then f
  else if (b : Int) < 2 * r then f + 1
  else if f % 2 = 0 then f else f + 1

/-- The binary32 value nearest to `q` (ties to even), as a rational.
Exponents below `-126` use the subnormal spacing `2^-149`.  Overflow to
infinity is not represented: every operand in this program is bounded in
magnitude by `2^31`. -/
def f32 (q : ℚ) : ℚ :=
  if q.num = 0 then 0
  else
    let e := max (ilog2 q.num.natAbs q.den) (-126)
    let k : Int := e - 23
    if 0 ≤ k then
      ((roundHalfEven q.num (q.den * 2 ^ k.toNat) * (2 ^ k.toNat : Nat) : Int) : ℚ)
    else
      mkRat (roundHalfEven (q.num * (2 ^ (-k).toNat : Nat)) q.den) (2 ^ (-k).toNat)

/-- The `float` product. -/
def fmul (a b : ℚ) : ℚ := f32 (a * b)

/-- The `float` sum. -/
def fadd (a b : ℚ) : ℚ := f32 (a + b)

/-- The `float` difference. -/
def fsub (a b : ℚ) : ℚ := f32 (a - b)

/-- The `float` quotient. -/
def fdiv (a b : ℚ) : ℚ := f32 (a / b)

/-- Conversion of an integer to `float`. -/
def floatOfInt (i : Int) : ℚ := f32 (i : ℚ)

/-- The constant `const float u = 16;`. -/
def u : ℚ := 16

/-- The cast `(int16_t)` of a `long` (two's-complement wrap). -/
def toInt16 (x : Int) : Int := (x + 32768) % 65536 - 32768

/-- The cast `(uint16_t)` of a `float`: the value truncated toward zero.
When the truncated value is not in `0 .. 65535` the C behaviour is
undefined, which is `none` here. -/
def toUInt16 (x : ℚ) : Option Nat :=
  let t := Int.tdiv x.num (x.den : Int)
  if 0 ≤ t ∧ t < 65536 then some t.toNat else none

/-! ## Events, timers, effects -/

/-- The three `evtimer_msg_event_t` objects. -/
inductive Timer where
  | interval_event
  | leader_timeout_event
  | leader_threshold_event
  deriving DecidableEq, Repr

/-- Message types (`m.type`).  The numeric values of the seven `ELECT_*_EVENT`
constants live in `elect.h`; `unknown` is any other value. -/
inductive EventType where
  | ELECT_INTERVAL_EVENT
  | ELECT_BROADCAST_EVENT
  | ELECT_LEADER_ALIVE_EVENT
  | ELECT_LEADER_TIMEOUT_EVENT
  | ELECT_NODES_EVENT
  | ELECT_SENSOR_EVENT
  | ELECT_LEADER_THRESHOLD_EVENT
  | unknown (code : Nat)
  deriving DecidableEq, Repr

/-- A received message: its type, and what the handler's parsing of
`m.content.ptr` yields (`ipv6_addr_from_str` for an address, `strtol` for a
sensor value).  A handler reads only the field it parses. -/
structure Msg where
  type : EventType
  addr : Nat
  value : Int
  deriving DecidableEq, Repr

/-- Calls into collaborators, in program order. -/
inductive Effect where
  | evtimer_del (t : Timer)
  | evtimer_add_msg (t : Timer)
  | broadcast_id (own : Nat)
  | broadcast_sensor (v : Option Nat)
  | coap_get_sensor (node : Nat)
  | coap_put_node (leader own : Nat)
  | log_error
  | log_warning
  | printf_undefined_type
  | msg_reply
  | enter_reset
  deriving DecidableEq, Repr

/-- What the environment returns during one handler run: the local sensor
reading and, for the `i`-th loop iteration, the return code of
`coap_get_sensor(nodes[i])` (non-zero is failure). -/
structure Env where
  sensor_read : Int
  coap_get_sensor : Nat → Int

/-! ## Program state -/

/-- The globals of `main.c`, and for each timer event whether it is currently
queued in `evtimer`. -/
structure State where
  amITheBoss : Bool
  running : Bool
  gotNeverMessage : Bool
  sensorValue : ℚ
  nodes : List Nat
  latestReceivedIP : Nat
  ownIP : Nat
  currentNumNodes : Nat
  sensorsNumReceived : Nat
  interruptCnt : Nat
  successfulGets : Nat
  interval_event : Bool
  leader_timeout_event : Bool
  leader_threshold_event : Bool
  deriving DecidableEq, Repr

/-- The globals as statically initialised, after `get_node_ip_addr(&ownIP)`. -/
def initial (N : Nat) (own : Nat) : State :=
  { amITheBoss := false, running := false, gotNeverMessage := true,
    sensorValue := 0, nodes := List.replicate N 0, latestReceivedIP := 0,
    ownIP := own, currentNumNodes := 0, sensorsNumReceived := 0,
    interruptCnt := 0, successfulGets := 0,
    interval_event := false, leader_timeout_event := false,
    leader_threshold_event := false }

/-- `evtimer_del(&evtimer, &t.event)`. -/
def evtimer_del (t : Timer) (s : State) : State :=
  match t with
  | .interval_event => { s with interval_event := false }
  | .leader_timeout_event => { s with leader_timeout_event := false }
  | .leader_threshold_event => { s with leader_threshold_event := false }

/-- `evtimer_add_msg(&evtimer, &t, main_pid)`. -/
def evtimer_add_msg (t : Timer) (s : State) : State :=
  match t with
  | .interval_event => { s with interval_event := true }
  | .leader_timeout_event => { s with leader_timeout_event := true }
  | .leader_threshold_event => { s with leader_threshold_event := true }

/-- `startTimer(eventType)`. -/
def startTimer (eventType : EventType) (s : State) : State × List Effect :=
  match eventType with
  | .ELECT_INTERVAL_EVENT =>
      (evtimer_add_msg .interval_event (evtimer_del .interval_event s),
        [.evtimer_del .interval_event, .evtimer_add_msg .interval_event])
  | .ELECT_LEADER_THRESHOLD_EVENT =>
      (evtimer_add_msg .leader_threshold_event (evtimer_del .leader_threshold_event s),
        [.evtimer_del .leader_threshold_event, .evtimer_add_msg .leader_threshold_event])
  | .ELECT_LEADER_TIMEOUT_EVENT =>
      (evtimer_add_msg .leader_timeout_event (evtimer_del .leader_timeout_event s),
        [.evtimer_del .leader_timeout_event, .evtimer_add_msg .leader_timeout_event])
  | _ => (s, [.printf_undefined_type])

/-- `reset()`.  The effect `enter_reset` marks the call. -/
def reset (s : State) : State × List Effect :=
  let s1 : State :=
    { s with
      currentNumNodes := 0, amITheBoss := false, running := false,
      gotNeverMessage := true, sensorsNumReceived := 0,
      latestReceivedIP := s.ownIP, interruptCnt := 0, successfulGets := 0 }
  let s2 := evtimer_del .leader_timeout_event
    (evtimer_del .leader_threshold_event (evtimer_del .interval_event s1))
  let r3 := startTimer .ELECT_INTERVAL_EVENT s2
  let r4 := startTimer .ELECT_LEADER_THRESHOLD_EVENT r3.1
  (r4.1,
    [.enter_reset, .evtimer_del .interval_event, .evtimer_del .leader_threshold_event,
      .evtimer_del .leader_timeout_event] ++ r3.2 ++ r4.2)

/-! ## The event loop -/

/-- The loop `for (int i = 0; i < currentNumNodes; i++)` of the interval
handler, entered at index `i` with `remaining = currentNumNodes - i`
iterations to go.  The loop body leaves the state alone unless a fetch
fails, in which case `reset()` runs and the loop is left by `break`. -/
def pollNodes (env : Env) : Nat → Nat → State → State × List Effect
  | 0, _, s => (s, [])
  | remaining + 1, i, s =>
      if env.coap_get_sensor i ≠ 0 then
        let r := reset s
        (r.1, Effect.coap_get_sensor (s.nodes.getD i 0) :: r.2)
      else
        let r := pollNodes env remaining (i + 1) s
        (r.1, Effect.coap_get_sensor (s.nodes.getD i 0) :: r.2)

/-- The condition `(m.type != ELECT_INTERVAL_EVENT) && (m.type !=
ELECT_LEADER_TIMEOUT_EVENT) && (m.type != ELECT_LEADER_THRESHOLD_EVENT)`. -/
def needsReply (t : EventType) : Bool :=
  t ≠ .ELECT_INTERVAL_EVENT ∧ t ≠ .ELECT_LEADER_TIMEOUT_EVENT ∧
    t ≠ .ELECT_LEADER_THRESHOLD_EVENT

/-- The `switch (m.type)` statement of the event loop. -/
def dispatch (N : Nat) (env : Env) (m : Msg) (s : State) : State × List Effect :=
  match m.type with
  | .ELECT_INTERVAL_EVENT =>
      let r1 : State × List Effect :=
        if s.amITheBoss then
          pollNodes env s.currentNumNodes 0
            { s with sensorValue := floatOfInt env.sensor_read }
        else (s, [.broadcast_id s.ownIP])
      let r2 := startTimer .ELECT_INTERVAL_EVENT r1.1
      (r2.1, r1.2 ++ r2.2)
  | .ELECT_BROADCAST_EVENT =>
      if s.running then reset s
      else
        let addr := m.addr
        let r1 : State × List Effect :=
          if ipv6_addr_cmp s.ownIP addr < 0 then
            (evtimer_del .interval_event s, [.evtimer_del .interval_event])
          else (s, [])
        let r2 : State × List Effect :=
          if r1.1.gotNeverMessage then
            startTimer .ELECT_LEADER_THRESHOLD_EVENT
              { r1.1 with latestReceivedIP := addr, gotNeverMessage := false }
          else (r1.1, [])
        let r3 : State × List Effect :=
          if ipv6_addr_cmp r2.1.latestReceivedIP addr ≠ 0 ∧
              ipv6_addr_cmp r2.1.latestReceivedIP addr < 0 then
            startTimer .ELECT_LEADER_THRESHOLD_EVENT { r2.1 with latestReceivedIP := addr }
          else (r2.1, [])
        (r3.1, r1.2 ++ r2.2 ++ r3.2)
  | .ELECT_LEADER_ALIVE_EVENT => startTimer .ELECT_LEADER_TIMEOUT_EVENT s
  | .ELECT_LEADER_TIMEOUT_EVENT => reset s
  | .ELECT_NODES_EVENT =>
      if s.currentNumNodes ≥ N then (s, [.log_error])
      else
        startTimer .ELECT_INTERVAL_EVENT
          { s with
            running := true, amITheBoss := true,
            nodes := s.nodes.set s.currentNumNodes m.addr,
            currentNumNodes := (s.currentNumNodes + 1) % 256 }
  | .ELECT_SENSOR_EVENT =>
      if s.amITheBoss then
        let received := (s.sensorsNumReceived + 1) % 256
        let value := toInt16 m.value
        let estimate :=
          fadd (fmul (fdiv (fsub u (floatOfInt 1)) u) s.sensorValue)
            (fmul (fdiv (floatOfInt 1) u) (floatOfInt value))
        if received = s.currentNumNodes then
          ({ s with sensorsNumReceived := 0, sensorValue := 0 },
            [.broadcast_sensor (toUInt16 estimate)])
        else ({ s with sensorsNumReceived := received, sensorValue := estimate }, [])
      else (s, [])
  | .ELECT_LEADER_THRESHOLD_EVENT =>
      if ipv6_addr_cmp s.ownIP s.latestReceivedIP < 0 then
        ({ s with running := true }, [.coap_put_node s.latestReceivedIP s.ownIP])
      else (s, [.log_warning])
  | .unknown _ => (s, [.log_warning])

/-- One iteration of `while (true)`: the `switch`, then the guarded
`msg_reply(&m, &m)`. -/
def handle (N : Nat) (env : Env) (m : Msg) (s : State) : State × List Effect :=
  let r := dispatch N env m s
  (r.1, r.2 ++ (if needsReply m.type then [.msg_reply] else []))

/-- The event loop run over a finite sequence of received messages, each
with what the environment answers while it is handled. -/
def run (N : Nat) : State → List (Env × Msg) → State × List Effect
  | s, [] => (s, [])
  | s, em :: rest =>
      let r := handle N em.1 em.2 s
      let r' := run N r.1 rest
      (r'.1, r.2 ++ r'.2)

/-- The state in which `main` enters the event loop: `reset()` applied to the
initial globals. -/
def start (N : Nat) (own : Nat) : State := (reset (initial N own)).1

/-- An environment in which every fetch is issued successfully. -/
def quietEnv : Env := { sensor_read := 0, coap_get_sensor := fun _ => 0 }

/-- A message of type `ELECT_BROADCAST_EVENT` carrying address `a`. -/
def broadcastMsg (a : Nat) : Msg := { type := .ELECT_BROADCAST_EVENT, addr := a, value := 0 }

/-- A message of type `ELECT_NODES_EVENT` carrying address `a`. -/
def nodesMsg (a : Nat) : Msg := { type := .ELECT_NODES_EVENT, addr := a, value := 0 }

/-- A message of type `ELECT_SENSOR_EVENT` carrying the parsed value `v`. -/
def sensorMsg (v : Int) : Msg := { type := .ELECT_SENSOR_EVENT, addr := 0, value := v }

/-- A message of the given type without content. -/
def plainMsg (t : EventType) : Msg := { type := t, addr := 0, value := 0 }

/-! ## Specification-side definitions -/

/-- The recurrence `e_0 = 0`, `e_i = ((w-1)/w) * e_(i-1) + (1/w) * v_i` with
`w = 16`, over exact rationals, as the specification words it. -/
def ewmaExact (vs : List Int) : ℚ :=
  vs.foldl (fun e v => (15 / 16 : ℚ) * e + (1 / 16 : ℚ) * (v : ℚ)) 0

/-- One step of the recurrence with every operation rounded to binary32 and
the sample cast to `int16_t` first:
`fl (fl (15/16 * e) + fl (1/16 * fl v))`. -/
def fuseF32 (e : ℚ) (v : Int) : ℚ :=
  f32 (f32 ((15 / 16 : ℚ) * e) + f32 ((1 / 16 : ℚ) * f32 ((toInt16 v : Int) : ℚ)))

/-- The binary32 recurrence: `e_0 = 0`, `e_i = fuseF32 e_(i-1) v_i`. -/
def ewmaF32 (vs : List Int) : ℚ := vs.foldl fuseF32 0

/-- A leader with the three followers 1, 2, 3 and a cleared accumulator, as
reached from the start state by three registrations. -/
def leaderOfThree : State :=
  (run 8 (start 8 10) [(quietEnv, nodesMsg 1), (quietEnv, nodesMsg 2), (quietEnv, nodesMsg 3)]).1

/-- Whether a trace shows a registration request (`coap_put_node`) sent after
the last call of `reset()`. -/
def registeredSinceReset (trace : List Effect) : Bool :=
  trace.foldl
    (fun acc e =>
      match e with
      | .enter_reset => false
      | .coap_put_node _ _ => true
      | _ => acc)
    false

/-- An environment in which the local reading is `r` and every fetch fails. -/
def failingEnv (r : Int) : Env := { sensor_read := r, coap_get_sensor := fun _ => 1 }

/-- The sequence of events that delivers the sensor values `vs`. -/
def sensorEvents (env : Env) (vs : List Int) : List (Env × Msg) :=
  vs.map (fun v => (env, sensorMsg v))

/-- The fetches issued to roster entries `i, i+1, .., i+n-1`, in that order. -/
def fetches (s : State) (i n : Nat) : List Effect :=
  (List.range n).map (fun k => Effect.coap_get_sensor (s.nodes.getD (i + k) 0))

/-- An environment in which the local reading is `r` and exactly the fetch to
roster index `j` fails. -/
def failAt (r : Int) (j : Nat) : Env :=
  { sensor_read := r, coap_get_sensor := fun i => if i = j then 1 else 0 }

/-- An environment in which the local reading is `r` and every fetch is
issued successfully. -/
def readingEnv (r : Int) : Env := { sensor_read := r, coap_get_sensor := fun _ => 0 }

/-- The election phase of one node of the three-node scenario: from the start
state with own address `own`, the broadcasts of `a` and then `b` are handled,
then the threshold event. -/
def electionRun (N own a b : Nat) : State × List Effect :=
  run N (start N own)
    [(quietEnv, broadcastMsg a), (quietEnv, broadcastMsg b),
      (quietEnv, plainMsg .ELECT_LEADER_THRESHOLD_EVENT)]

/-- Node Z of the three-node scenario as leader: own address 30, roster
`[10, 20]`, cleared accumulator, reached from its election run by the two
registrations. -/
def leaderZ : State :=
  (run 8 (electionRun 8 30 10 20).1 [(quietEnv, nodesMsg 10), (quietEnv, nodesMsg 20)]).1

/-! ## Theorems -/

/-! ### `reset` -/

theorem reset_state (s : State) :
    (reset s).1 =
      { s with
        currentNumNodes := 0, amITheBoss := false, running := false,
        gotNeverMessage := true, sensorsNumReceived := 0,
        latestReceivedIP := s.ownIP, interruptCnt := 0, successfulGets := 0,
        interval_event := true, leader_threshold_event := true,
        leader_timeout_event := false } := by
  rfl

theorem reset_effects (s : State) :
    (reset s).2 =
      [.enter_reset, .evtimer_del .interval_event, .evtimer_del .leader_threshold_event,
        .evtimer_del .leader_timeout_event,
        .evtimer_del .interval_event, .evtimer_add_msg .interval_event,
        .evtimer_del .leader_threshold_event, .evtimer_add_msg .leader_threshold_event] := by
  rfl

/-- C1 (the code at the failing input): `reset()` clears the role flags, the
roster size, the received count and `latestReceivedIP`, arms the interval and
threshold timers and leaves the timeout timer unqueued, but it never assigns
`sensorValue`.  A leader with roster `[5]` that handles an interval tick with
local reading 7 and a failing fetch runs `reset()` and afterwards still holds
the running estimate 7, not 0. -/
theorem C1_reset_keeps_running_estimate :
    (∀ s : State,
      (reset s).1.amITheBoss = false ∧ (reset s).1.running = false ∧
      (reset s).1.gotNeverMessage = true ∧ (reset s).1.currentNumNodes = 0 ∧
      (reset s).1.latestReceivedIP = s.ownIP ∧ (reset s).1.sensorsNumReceived = 0 ∧
      (reset s).1.interval_event = true ∧ (reset s).1.leader_threshold_event = true ∧
      (reset s).1.leader_timeout_event = false ∧
      (reset s).1.sensorValue = s.sensorValue) ∧
    (run 8 (start 8 10)
      [(quietEnv, nodesMsg 5),
        (failingEnv 7, plainMsg .ELECT_INTERVAL_EVENT)]).1.sensorValue = 7 ∧
    Effect.enter_reset ∈ (run 8 (start 8 10)
      [(quietEnv, nodesMsg 5), (failingEnv 7, plainMsg .ELECT_INTERVAL_EVENT)]).2 ∧
    (reset { start 8 10 with sensorValue := 7 }).1.sensorValue = 7 := by
  refine ⟨fun s => ⟨rfl, rfl, rfl, rfl, rfl, rfl, rfl, rfl, rfl, rfl⟩, ?_, ?_, ?_⟩
  · decide!
  · decide!
  · decide!

/-! ### Broadcasts and the threshold -/


theorem ipv6_addr_cmp_neg (a b : Nat) : ipv6_addr_cmp a b < 0 ↔ a < b := by
  unfold ipv6_addr_cmp
  split_ifs <;> simp_all

theorem ipv6_addr_cmp_eq_zero (a b : Nat) : ipv6_addr_cmp a b = 0 ↔ a = b := by
  unfold ipv6_addr_cmp
  split_ifs <;> simp <;> omega

/-- The broadcast handler on an unsettled node, branch by branch. -/
theorem dispatch_broadcast_unsettled (N : Nat) (env : Env) (m : Msg) (s : State)
    (hm : m.type = .ELECT_BROADCAST_EVENT) (hr : s.running = false) :
    dispatch N env m s =
      ({ s with
          gotNeverMessage := false,
          latestReceivedIP :=
            if s.gotNeverMessage then m.addr else max s.latestReceivedIP m.addr,
          interval_event := if s.ownIP < m.addr then false else s.interval_event,
          leader_threshold_event :=
            if s.gotNeverMessage ∨ s.latestReceivedIP < m.addr then true
            else s.leader_threshold_event },
        (if s.ownIP < m.addr then [.evtimer_del .interval_event] else []) ++
        (if s.gotNeverMessage ∨ s.latestReceivedIP < m.addr then
          [.evtimer_del .leader_threshold_event, .evtimer_add_msg .leader_threshold_event]
        else [])) := by
  simp only [dispatch, hm, hr]
  by_cases h1 : s.ownIP < m.addr <;> by_cases h2 : s.gotNeverMessage = true <;>
    rcases Nat.lt_trichotomy s.latestReceivedIP m.addr with h3 | h3 | h3 <;>
    simp [h1, h2, h3, startTimer, evtimer_del, evtimer_add_msg, hr, ipv6_addr_cmp_neg,
      ipv6_addr_cmp_eq_zero, Nat.ne_of_lt, Nat.ne_of_gt, Nat.le_of_lt, Nat.lt_asymm]
  all_goals (cases s; simp_all)


theorem handle_fst (N : Nat) (env : Env) (m : Msg) (s : State) :
    (handle N env m s).1 = (dispatch N env m s).1 := rfl

theorem run_nil (N : Nat) (s : State) : run N s [] = (s, []) := rfl

theorem run_cons (N : Nat) (s : State) (em : Env × Msg) (rest : List (Env × Msg)) :
    run N s (em :: rest) =
      ((run N (handle N em.1 em.2 s).1 rest).1,
        (handle N em.1 em.2 s).2 ++ (run N (handle N em.1 em.2 s).1 rest).2) := rfl

theorem foldl_max_ge (l : List Nat) : ∀ a : Nat, a ≤ l.foldl max a := by
  induction l with
  | nil => intro a; exact le_refl a
  | cons b l ih => intro a; exact le_trans (le_max_left a b) (ih (max a b))

theorem foldl_max_mem (l : List Nat) : ∀ a : Nat, l.foldl max a ∈ a :: l := by
  induction l with
  | nil => intro a; simp
  | cons b l ih =>
      intro a
      have h := ih (max a b)
      rcases List.mem_cons.mp h with h | h
      · have h' : (b :: l).foldl max a = max a b := h
        rcases max_choice a b with hc | hc
        · rw [h', hc]; simp
        · rw [h', hc]; simp
      · exact List.mem_cons_of_mem _ (List.mem_cons_of_mem _ h)

theorem foldl_max_upper (l : List Nat) : ∀ a : Nat, ∀ x ∈ a :: l, x ≤ l.foldl max a := by
  induction l with
  | nil => intro a x hx; simp at hx; simp [hx]
  | cons b l ih =>
      intro a x hx
      rcases List.mem_cons.mp hx with h | h
      · rw [h]; exact foldl_max_ge (b :: l) a
      · rcases List.mem_cons.mp h with h | h
        · rw [h]
          exact le_trans (le_max_right a b) (foldl_max_ge l (max a b))
        · exact ih (max a b) x (List.mem_cons_of_mem _ h)

/-- Broadcasts delivered to an unsettled node that has already seen one:
the node stays unsettled and `latestReceivedIP` becomes the running maximum. -/
theorem run_broadcasts_seen (N : Nat) (ms : List (Env × Msg)) :
    ∀ s : State, (∀ em ∈ ms, em.2.type = .ELECT_BROADCAST_EVENT) →
      s.running = false → s.gotNeverMessage = false →
      (run N s ms).1.running = false ∧ (run N s ms).1.ownIP = s.ownIP ∧
      (run N s ms).1.gotNeverMessage = false ∧
      (run N s ms).1.latestReceivedIP =
        (ms.map (fun em => em.2.addr)).foldl max s.latestReceivedIP := by
  induction ms with
  | nil => intro s _ hr hg; simp [run_nil, hr, hg]
  | cons em rest ih =>
      intro s hb hr hg
      have hty : em.2.type = .ELECT_BROADCAST_EVENT := hb em (List.mem_cons_self _ _)
      have hrest : ∀ x ∈ rest, x.2.type = .ELECT_BROADCAST_EVENT :=
        fun x hx => hb x (List.mem_cons_of_mem _ hx)
      have hd := dispatch_broadcast_unsettled N em.1 em.2 s hty hr
      have h1 : (handle N em.1 em.2 s).1.running = false := by
        rw [handle_fst, hd]; exact hr
      have h2 : (handle N em.1 em.2 s).1.gotNeverMessage = false := by
        rw [handle_fst, hd]
      have h3 : (handle N em.1 em.2 s).1.ownIP = s.ownIP := by
        rw [handle_fst, hd]
      have h4 : (handle N em.1 em.2 s).1.latestReceivedIP = max s.latestReceivedIP em.2.addr := by
        rw [handle_fst, hd]; simp [hg]
      have := ih (handle N em.1 em.2 s).1 hrest h1 h2
      rw [run_cons]
      simp only [List.map_cons, List.foldl_cons]
      rw [← h4, ← h3]
      exact this

/-- Broadcasts delivered right after `reset()`: the first one is recorded
whatever it is, the later ones raise the maximum. -/
theorem run_broadcasts_fresh (N : Nat) (em : Env × Msg) (rest : List (Env × Msg)) (s : State)
    (hb : ∀ x ∈ em :: rest, x.2.type = .ELECT_BROADCAST_EVENT)
    (hr : s.running = false) (hg : s.gotNeverMessage = true) :
    (run N s (em :: rest)).1.running = false ∧ (run N s (em :: rest)).1.ownIP = s.ownIP ∧
      (run N s (em :: rest)).1.gotNeverMessage = false ∧
      (run N s (em :: rest)).1.latestReceivedIP =
        (rest.map (fun x => x.2.addr)).foldl max em.2.addr := by
  have hty : em.2.type = .ELECT_BROADCAST_EVENT := hb em (List.mem_cons_self _ _)
  have hrest : ∀ x ∈ rest, x.2.type = .ELECT_BROADCAST_EVENT :=
    fun x hx => hb x (List.mem_cons_of_mem _ hx)
  have hd := dispatch_broadcast_unsettled N em.1 em.2 s hty hr
  have h1 : (handle N em.1 em.2 s).1.running = false := by
    rw [handle_fst, hd]; exact hr
  have h2 : (handle N em.1 em.2 s).1.gotNeverMessage = false := by
    rw [handle_fst, hd]
  have h3 : (handle N em.1 em.2 s).1.ownIP = s.ownIP := by
    rw [handle_fst, hd]
  have h4 : (handle N em.1 em.2 s).1.latestReceivedIP = em.2.addr := by
    rw [handle_fst, hd]; simp [hg]
  have := run_broadcasts_seen N rest (handle N em.1 em.2 s).1 hrest h1 h2
  rw [run_cons]
  rw [← h4, ← h3]
  exact this

/-- The threshold handler when a higher address has been recorded. -/
theorem handle_threshold_lower (N : Nat) (env : Env) (m : Msg) (s : State)
    (hm : m.type = .ELECT_LEADER_THRESHOLD_EVENT) (h : s.ownIP < s.latestReceivedIP) :
    handle N env m s =
      ({ s with running := true }, [.coap_put_node s.latestReceivedIP s.ownIP]) := by
  simp [handle, dispatch, hm, needsReply, ipv6_addr_cmp_neg, h]

/-- C2: from the state right after `reset()`, any non-empty sequence of
broadcast events whose addresses are a permutation of the list `L` leaves
`latestReceivedIP` equal to the maximum of `L` (a member of `L` that bounds
every member), whatever the order of delivery; and when that maximum is above
the own address, the threshold handler's only effect is the single call
`coap_put_node(max L, ownIP)`. -/
theorem C2_tie_break_determinism (N : Nat) (s0 : State) (L : List Nat)
    (ms : List (Env × Msg)) (env : Env) (mt : Msg)
    (hne : L ≠ [])
    (hb : ∀ em ∈ ms, em.2.type = .ELECT_BROADCAST_EVENT)
    (hperm : (ms.map (fun em => em.2.addr)).Perm L)
    (ht : mt.type = .ELECT_LEADER_THRESHOLD_EVENT) :
    (run N (reset s0).1 ms).1.latestReceivedIP ∈ L ∧
    (∀ a ∈ L, a ≤ (run N (reset s0).1 ms).1.latestReceivedIP) ∧
    (s0.ownIP < (run N (reset s0).1 ms).1.latestReceivedIP →
      (handle N env mt (run N (reset s0).1 ms).1).2 =
        [.coap_put_node (run N (reset s0).1 ms).1.latestReceivedIP s0.ownIP]) := by
  cases ms with
  | nil =>
      exfalso
      apply hne
      simpa using hperm.symm
  | cons em rest =>
      have h := run_broadcasts_fresh N em rest (reset s0).1 hb rfl rfl
      obtain ⟨_, hown, _, hlat⟩ := h
      have hmem := foldl_max_mem (rest.map (fun x => x.2.addr)) em.2.addr
      have hup := foldl_max_upper (rest.map (fun x => x.2.addr)) em.2.addr
      rw [← hlat] at hmem hup
      refine ⟨?_, ?_, ?_⟩
      · exact hperm.subset (by simpa using hmem)
      · intro a ha
        exact hup a (by simpa using hperm.symm.subset ha)
      · intro hlt
        have hown' : (run N (reset s0).1 (em :: rest)).1.ownIP = s0.ownIP := by
          rw [hown]; rfl
        rw [handle_threshold_lower N env mt _ ht (by rw [hown']; exact hlt), hown']

/-- C2 at a concrete input: own address 10, broadcasts 30 then 20. -/
theorem C2_tie_break_determinism_witness :
    (run 8 (reset (initial 8 10)).1
        [(quietEnv, broadcastMsg 30), (quietEnv, broadcastMsg 20)]).1.latestReceivedIP
        ∈ [20, 30] ∧
    (∀ a ∈ [20, 30], a ≤ (run 8 (reset (initial 8 10)).1
        [(quietEnv, broadcastMsg 30), (quietEnv, broadcastMsg 20)]).1.latestReceivedIP) ∧
    (handle 8 quietEnv (plainMsg .ELECT_LEADER_THRESHOLD_EVENT)
        (run 8 (reset (initial 8 10)).1
          [(quietEnv, broadcastMsg 30), (quietEnv, broadcastMsg 20)]).1).2 =
      [.coap_put_node (run 8 (reset (initial 8 10)).1
        [(quietEnv, broadcastMsg 30), (quietEnv, broadcastMsg 20)]).1.latestReceivedIP
        (initial 8 10).ownIP] :=
  have h := C2_tie_break_determinism 8 (initial 8 10) [20, 30]
    [(quietEnv, broadcastMsg 30), (quietEnv, broadcastMsg 20)] quietEnv
    (plainMsg .ELECT_LEADER_THRESHOLD_EVENT) (by decide)
    (by intro em h; simp at h; rcases h with rfl | rfl <;> rfl)
    (List.Perm.swap 20 30 []) rfl
  ⟨h.1, h.2.1, h.2.2 (by decide)⟩

/-! ### Registration -/

theorem run_append (N : Nat) (a b : List (Env × Msg)) :
    ∀ s : State, run N s (a ++ b) =
      ((run N (run N s a).1 b).1, (run N s a).2 ++ (run N (run N s a).1 b).2) := by
  induction a with
  | nil => intro s; simp [run_nil]
  | cons em rest ih => intro s; simp [run_cons, ih, List.append_assoc]

/-- The registration handler when the roster has room. -/
theorem handle_nodes_accept (N : Nat) (env : Env) (m : Msg) (s : State)
    (hm : m.type = .ELECT_NODES_EVENT) (h : s.currentNumNodes < N) :
    handle N env m s =
      ({ s with
          running := true, amITheBoss := true,
          nodes := s.nodes.set s.currentNumNodes m.addr,
          currentNumNodes := (s.currentNumNodes + 1) % 256,
          interval_event := true },
        [.evtimer_del .interval_event, .evtimer_add_msg .interval_event, .msg_reply]) := by
  simp [handle, dispatch, hm, needsReply, Nat.not_le.mpr h, startTimer, evtimer_del,
    evtimer_add_msg]

/-- The registration handler when the roster is full. -/
theorem handle_nodes_reject (N : Nat) (env : Env) (m : Msg) (s : State)
    (hm : m.type = .ELECT_NODES_EVENT) (h : N ≤ s.currentNumNodes) :
    handle N env m s = (s, [.log_error, .msg_reply]) := by
  simp [handle, dispatch, hm, needsReply, h]

/-- C3 (counterexample): from the start state (`N = 8`, empty roster) the
registration of address 5 handled twice in a row gives roster size 1 after
the first and 2 after the second, with 5 stored at index 0 and at index 1. -/
theorem C3_duplicate_registration_counted_twice :
    (run 8 (start 8 10) [(quietEnv, nodesMsg 5)]).1.currentNumNodes = 1 ∧
    (run 8 (start 8 10) [(quietEnv, nodesMsg 5)]).1.nodes = [5, 0, 0, 0, 0, 0, 0, 0] ∧
    (run 8 (start 8 10) [(quietEnv, nodesMsg 5), (quietEnv, nodesMsg 5)]).1.currentNumNodes
      = 2 ∧
    (run 8 (start 8 10) [(quietEnv, nodesMsg 5), (quietEnv, nodesMsg 5)]).1.nodes
      = [5, 5, 0, 0, 0, 0, 0, 0] ∧
    (run 8 (start 8 10) [(quietEnv, nodesMsg 5), (quietEnv, nodesMsg 5)]).1.currentNumNodes
      ≠ (run 8 (start 8 10) [(quietEnv, nodesMsg 5)]).1.currentNumNodes := by
  decide

/-- C3 (amended): with `N ≤ 255` and roster size `n < N`, handling a
registration of `A` stores `A` at index `n` and makes the size `n + 1`,
whether or not `A` is already in the roster; handling the same registration
again stores `A` once more at index `n + 1` and makes the size `n + 2` when
`n + 1 < N`, and is rejected with the state unchanged when `n + 1 = N`. -/
theorem C3_registration_always_appends (N : Nat) (env : Env) (m : Msg) (s : State)
    (hm : m.type = .ELECT_NODES_EVENT) (hN : N ≤ 255) (hn : s.currentNumNodes < N)
    (hlen : s.nodes.length = N) :
    (handle N env m s).1.currentNumNodes = s.currentNumNodes + 1 ∧
    (handle N env m s).1.nodes[s.currentNumNodes]? = some m.addr ∧
    (s.currentNumNodes + 1 < N →
      (handle N env m (handle N env m s).1).1.currentNumNodes = s.currentNumNodes + 2 ∧
      (handle N env m (handle N env m s).1).1.nodes[s.currentNumNodes]? = some m.addr ∧
      (handle N env m (handle N env m s).1).1.nodes[s.currentNumNodes + 1]? = some m.addr) ∧
    (s.currentNumNodes + 1 = N →
      handle N env m (handle N env m s).1 =
        ((handle N env m s).1, [.log_error, .msg_reply])) := by
  have h1 := handle_nodes_accept N env m s hm hn
  have hmod : (s.currentNumNodes + 1) % 256 = s.currentNumNodes + 1 :=
    Nat.mod_eq_of_lt (by omega)
  have hc1 : (handle N env m s).1.currentNumNodes = s.currentNumNodes + 1 := by
    rw [h1]; exact hmod
  have hn1 : (handle N env m s).1.nodes = s.nodes.set s.currentNumNodes m.addr := by
    rw [h1]
  refine ⟨hc1, ?_, ?_, ?_⟩
  · rw [hn1]
    simp [List.getElem?_set, hlen, hn]
  · intro h2
    have h3 := handle_nodes_accept N env m (handle N env m s).1 hm (by rw [hc1]; exact h2)
    rw [h3]
    simp only [hc1, hn1]
    refine ⟨Nat.mod_eq_of_lt (by omega), ?_, ?_⟩
    · simp [List.getElem?_set, hlen, hn]
    · simp [List.getElem?_set, hlen, h2]
  · intro h2
    exact handle_nodes_reject N env m _ hm (by rw [hc1]; omega)

/-- C3 (amended) at concrete inputs: address 5 registered twice with `N = 8`
and with `N = 1`. -/
theorem C3_registration_always_appends_witness :
    (handle 8 quietEnv (nodesMsg 5) (start 8 10)).1.currentNumNodes
      = (start 8 10).currentNumNodes + 1 ∧
    (handle 8 quietEnv (nodesMsg 5) (start 8 10)).1.nodes[(start 8 10).currentNumNodes]?
      = some (nodesMsg 5).addr ∧
    (handle 8 quietEnv (nodesMsg 5)
      (handle 8 quietEnv (nodesMsg 5) (start 8 10)).1).1.currentNumNodes
      = (start 8 10).currentNumNodes + 2 ∧
    handle 1 quietEnv (nodesMsg 5) (handle 1 quietEnv (nodesMsg 5) (start 1 10)).1 =
      ((handle 1 quietEnv (nodesMsg 5) (start 1 10)).1, [.log_error, .msg_reply]) :=
  have h := C3_registration_always_appends 8 quietEnv (nodesMsg 5) (start 8 10) rfl
    (by decide) (by decide) (by decide)
  have h' := C3_registration_always_appends 1 quietEnv (nodesMsg 5) (start 1 10) rfl
    (by decide) (by decide) (by decide)
  ⟨h.1, h.2.1, (h.2.2.1 (by decide)).1, h'.2.2.2 (by decide)⟩

/-! ### Sensor fusion -/

theorem weight_old : fdiv (fsub u (floatOfInt 1)) u = 15 / 16 := by decide!

theorem weight_new : fdiv (floatOfInt 1) u = 1 / 16 := by decide!

/-- The sensor handler of a leader whose cycle is not complete with this
sample. -/
theorem handle_sensor_more (N : Nat) (env : Env) (m : Msg) (s : State)
    (hm : m.type = .ELECT_SENSOR_EVENT) (hb : s.amITheBoss = true)
    (h : (s.sensorsNumReceived + 1) % 256 ≠ s.currentNumNodes) :
    handle N env m s =
      ({ s with
          sensorsNumReceived := (s.sensorsNumReceived + 1) % 256,
          sensorValue := fuseF32 s.sensorValue m.value },
        [.msg_reply]) := by
  simp only [handle, dispatch, hm, hb, weight_old, weight_new]
  simp [needsReply, h, fuseF32, fadd, fmul, floatOfInt]

/-- The sensor handler of a leader whose cycle this sample completes. -/
theorem handle_sensor_last (N : Nat) (env : Env) (m : Msg) (s : State)
    (hm : m.type = .ELECT_SENSOR_EVENT) (hb : s.amITheBoss = true)
    (h : (s.sensorsNumReceived + 1) % 256 = s.currentNumNodes) :
    handle N env m s =
      ({ s with sensorsNumReceived := 0, sensorValue := 0 },
        [.broadcast_sensor (toUInt16 (fuseF32 s.sensorValue m.value)), .msg_reply]) := by
  simp only [handle, dispatch, hm, hb, weight_old, weight_new]
  simp [needsReply, h, fuseF32, fadd, fmul, floatOfInt]

/-- Samples that do not complete the cycle only accumulate. -/
theorem run_sensor_below (N : Nat) (env : Env) (vs : List Int) :
    ∀ s : State, s.amITheBoss = true →
      s.sensorsNumReceived + vs.length < s.currentNumNodes → s.currentNumNodes < 256 →
      run N s (sensorEvents env vs) =
        ({ s with
            sensorsNumReceived := s.sensorsNumReceived + vs.length,
            sensorValue := vs.foldl fuseF32 s.sensorValue },
          List.replicate vs.length .msg_reply) := by
  induction vs with
  | nil => intro s _ _ _; simp [sensorEvents, run_nil]
  | cons v rest ih =>
      intro s hb hlt h8
      simp only [List.length_cons] at hlt
      have hmod : (s.sensorsNumReceived + 1) % 256 = s.sensorsNumReceived + 1 :=
        Nat.mod_eq_of_lt (by omega)
      have hstep := handle_sensor_more N env (sensorMsg v) s rfl hb (by rw [hmod]; omega)
      have hrest := ih
        { s with
          sensorsNumReceived := (s.sensorsNumReceived + 1) % 256,
          sensorValue := fuseF32 s.sensorValue (sensorMsg v).value }
        hb (by simp only [hmod]; omega) h8
      simp only [sensorEvents, List.map_cons, run_cons, hstep]
      simp only [sensorEvents] at hrest
      rw [hrest]
      simp [hmod, sensorMsg, List.replicate_succ, Nat.add_assoc, Nat.add_comm 1]


theorem foldl_fuseF32_snoc (vs : List Int) (v : Int) (e : ℚ) :
    (vs ++ [v]).foldl fuseF32 e = fuseF32 (vs.foldl fuseF32 e) v := by
  simp [List.foldl_append]

/-- The `(uint16_t)` cast of a value in range is its integer part. -/
theorem toUInt16_of_nonneg (x : ℚ) (h0 : 0 ≤ x) (h1 : x < 65536) :
    toUInt16 x = some ⌊x⌋.toNat := by
  have hnum : 0 ≤ x.num := Rat.num_nonneg.mpr h0
  have hfl : ⌊x⌋ = x.num / (x.den : Int) := Rat.floor_def' x
  have htd : Int.tdiv x.num (x.den : Int) = x.num / (x.den : Int) :=
    Int.tdiv_eq_ediv hnum (Int.natCast_nonneg _)
  have hf0 : 0 ≤ ⌊x⌋ := Int.floor_nonneg.mpr h0
  have hf1 : ⌊x⌋ < 65536 := by
    have : (⌊x⌋ : ℚ) ≤ x := Int.floor_le x
    have h2 : (⌊x⌋ : ℚ) < ((65536 : Int) : ℚ) := by
      exact lt_of_le_of_lt this (by simpa using h1)
    exact_mod_cast h2
  unfold toUInt16
  simp only [htd, ← hfl]
  simp [hf0, hf1]

/-- C4 (counterexample): the leader with three followers and a cleared
accumulator receives the samples 32767, 32754, 32766.  The exact recurrence
gives `e_3 = 23621631/4096`, whose integer part is 5766; the code, computing
in `float`, broadcasts 5767. -/
theorem C4_broadcast_differs_from_exact_recurrence :
    leaderOfThree.amITheBoss = true ∧ leaderOfThree.currentNumNodes = 3 ∧
    leaderOfThree.sensorsNumReceived = 0 ∧ leaderOfThree.sensorValue = 0 ∧
    (run 8 leaderOfThree (sensorEvents quietEnv [32767, 32754, 32766])).2 =
      [.msg_reply, .msg_reply, .broadcast_sensor (some 5767), .msg_reply] ∧
    ewmaExact [32767, 32754, 32766] = 23621631 / 4096 ∧
    toUInt16 (ewmaExact [32767, 32754, 32766]) = some 5766 := by
  refine ⟨?_, ?_, ?_, ?_, ?_, ?_, ?_⟩ <;> decide!

/-- C4 (amended): for a leader with a cleared accumulator and roster size
`k` (`1 ≤ k ≤ 255`), handling `k` consecutive sensor events makes the running
estimate after the `i`-th event (`i < k`) equal the binary32 recurrence
`ewmaF32` over the first `i` samples (each operation rounded to `float`, each
sample cast to `int16_t`), with received count `i` and no broadcast so far;
the `k`-th event emits exactly one `broadcast_sensor`, carrying the
`(uint16_t)` cast of `ewmaF32` over all `k` samples (its integer part when it
lies in `0 .. 65535`), and leaves count and estimate both 0. -/
theorem C4_fusion_binary32 (N : Nat) (env : Env) (s : State) (vs : List Int)
    (hb : s.amITheBoss = true) (hc : s.sensorsNumReceived = 0) (he : s.sensorValue = 0)
    (hk : s.currentNumNodes = vs.length) (h1 : 1 ≤ vs.length) (h8 : vs.length < 256) :
    (∀ i, i < vs.length →
      (run N s (sensorEvents env (vs.take i))).1.sensorValue = ewmaF32 (vs.take i) ∧
      (run N s (sensorEvents env (vs.take i))).1.sensorsNumReceived = i ∧
      (run N s (sensorEvents env (vs.take i))).2 = List.replicate i .msg_reply) ∧
    (run N s (sensorEvents env vs)).2 =
      List.replicate (vs.length - 1) .msg_reply ++
        [.broadcast_sensor (toUInt16 (ewmaF32 vs)), .msg_reply] ∧
    (run N s (sensorEvents env vs)).1.sensorsNumReceived = 0 ∧
    (run N s (sensorEvents env vs)).1.sensorValue = 0 ∧
    (0 ≤ ewmaF32 vs → ewmaF32 vs < 65536 →
      toUInt16 (ewmaF32 vs) = some ⌊ewmaF32 vs⌋.toNat) := by
  have hprefix : ∀ ws : List Int, ws.length < vs.length →
      run N s (sensorEvents env ws) =
        ({ s with sensorsNumReceived := ws.length, sensorValue := ws.foldl fuseF32 0 },
          List.replicate ws.length .msg_reply) := by
    intro ws hws
    have := run_sensor_below N env ws s hb (by rw [hc, hk]; omega) (by rw [hk]; exact h8)
    rw [this, hc, he, Nat.zero_add]
  refine ⟨?_, ?_, ?_, ?_, toUInt16_of_nonneg _⟩
  · intro i hi
    have hlen : (vs.take i).length = i := by
      rw [List.length_take]; omega
    have := hprefix (vs.take i) (by rw [hlen]; exact hi)
    rw [this, hlen]
    exact ⟨rfl, rfl, rfl⟩
  all_goals
    obtain ⟨ws, v, rfl⟩ : ∃ ws v, vs = ws ++ [v] := by
      have hne : vs ≠ [] := by
        intro h; rw [h] at h1; simp at h1
      exact ⟨vs.dropLast, vs.getLast hne, (List.dropLast_append_getLast hne).symm⟩
    have hws : ws.length < (ws ++ [v]).length := by simp
    have hpre := hprefix ws hws
    have hlast := handle_sensor_last N env (sensorMsg v)
      { s with sensorsNumReceived := ws.length, sensorValue := ws.foldl fuseF32 0 }
      rfl hb (by
        simp only [List.length_append, List.length_singleton] at hk h8
        show (ws.length + 1) % 256 = s.currentNumNodes
        rw [hk]; exact Nat.mod_eq_of_lt h8)
    have hrun : run N s (sensorEvents env (ws ++ [v])) =
        ({ s with sensorsNumReceived := 0, sensorValue := 0 },
          List.replicate ws.length .msg_reply ++
            [.broadcast_sensor (toUInt16 (ewmaF32 (ws ++ [v]))), .msg_reply]) := by
      have happ : sensorEvents env (ws ++ [v]) =
          sensorEvents env ws ++ [(env, sensorMsg v)] := by
        simp [sensorEvents]
      rw [happ, run_append, hpre, run_cons, run_nil, hlast]
      simp [ewmaF32, sensorMsg]
    simp [hrun]

/-- C4 (amended) at a concrete input: three followers, samples 32767, 32754,
32766. -/
theorem C4_fusion_binary32_witness :
    (∀ i, i < [32767, 32754, 32766].length →
      (run 8 leaderOfThree (sensorEvents quietEnv
        (([32767, 32754, 32766] : List Int).take i))).1.sensorValue
        = ewmaF32 (([32767, 32754, 32766] : List Int).take i) ∧
      (run 8 leaderOfThree (sensorEvents quietEnv
        (([32767, 32754, 32766] : List Int).take i))).1.sensorsNumReceived = i ∧
      (run 8 leaderOfThree (sensorEvents quietEnv
        (([32767, 32754, 32766] : List Int).take i))).2 = List.replicate i .msg_reply) ∧
    (run 8 leaderOfThree (sensorEvents quietEnv [32767, 32754, 32766])).2 =
      List.replicate ([32767, 32754, 32766].length - 1) .msg_reply ++
        [.broadcast_sensor (toUInt16 (ewmaF32 [32767, 32754, 32766])), .msg_reply] ∧
    (run 8 leaderOfThree (sensorEvents quietEnv [32767, 32754, 32766])).1.sensorsNumReceived
      = 0 ∧
    (run 8 leaderOfThree (sensorEvents quietEnv [32767, 32754, 32766])).1.sensorValue = 0 ∧
    toUInt16 (ewmaF32 [32767, 32754, 32766]) = some ⌊ewmaF32 [32767, 32754, 32766]⌋.toNat :=
  have h := C4_fusion_binary32 8 quietEnv leaderOfThree [32767, 32754, 32766]
    (by decide) (by decide) (by decide!) (by decide) (by decide) (by decide)
  ⟨h.1, h.2.1, h.2.2.1, h.2.2.2.1, h.2.2.2.2 (by decide!) (by decide!)⟩

/-! ### The remaining handlers -/

theorem startTimer_latestReceivedIP (t : EventType) (s : State) :
    (startTimer t s).1.latestReceivedIP = s.latestReceivedIP := by
  cases t <;> rfl

/-- The polling loop either runs `reset()` or leaves the state alone. -/
theorem pollNodes_cases (env : Env) (n : Nat) :
    ∀ (i : Nat) (s : State),
      Effect.enter_reset ∈ (pollNodes env n i s).2 ∨ (pollNodes env n i s).1 = s := by
  induction n with
  | zero => intro i s; right; rfl
  | succ n ih =>
      intro i s
      by_cases h : env.coap_get_sensor i ≠ 0
      · left
        simp [pollNodes, h, reset_effects]
      · rcases ih (i + 1) s with h' | h'
        · left
          simp only [pollNodes, h, if_false]
          exact List.mem_cons_of_mem _ h'
        · right
          simp only [pollNodes, h, if_false]
          exact h'

/-- C5 (counterexample): right after `reset()` with own address 10, the
broadcast of address 5 is handled without any call of `reset()` and lowers
`latestReceivedIP` from 10 to 5. -/
theorem C5_first_broadcast_lowers_highest_seen :
    (start 8 10).latestReceivedIP = 10 ∧
    (handle 8 quietEnv (broadcastMsg 5) (start 8 10)).1.latestReceivedIP = 5 ∧
    Effect.enter_reset ∉ (handle 8 quietEnv (broadcastMsg 5) (start 8 10)).2 ∧
    ¬ (start 8 10).latestReceivedIP
        ≤ (handle 8 quietEnv (broadcastMsg 5) (start 8 10)).1.latestReceivedIP := by
  decide

/-- C5 (amended): for every state and every event whose handling does not
call `reset()`, `latestReceivedIP` does not decrease provided the state has
already seen a broadcast (`gotNeverMessage = false`) or the event is not a
broadcast; and the first broadcast handled by an unsettled node that has seen
none records the received address whatever its order relative to the old
value. -/
theorem C5_highest_seen_monotone_after_first (N : Nat) (env : Env) (m : Msg) (s : State) :
    (Effect.enter_reset ∉ (handle N env m s).2 →
      (s.gotNeverMessage = false ∨ m.type ≠ .ELECT_BROADCAST_EVENT) →
      s.latestReceivedIP ≤ (handle N env m s).1.latestReceivedIP) ∧
    (m.type = .ELECT_BROADCAST_EVENT → s.running = false → s.gotNeverMessage = true →
      (handle N env m s).1.latestReceivedIP = m.addr) := by
  constructor
  · intro hno hcond
    rw [handle_fst]
    have hno' : Effect.enter_reset ∉ (dispatch N env m s).2 := by
      intro h
      apply hno
      simp only [handle]
      exact List.mem_append_left _ h
    cases hty : m.type with
    | ELECT_INTERVAL_EVENT =>
        simp only [dispatch, hty] at hno' ⊢
        rw [startTimer_latestReceivedIP]
        by_cases hb : s.amITheBoss = true
        · rw [if_pos hb] at hno' ⊢
          rcases pollNodes_cases env s.currentNumNodes 0
              { s with sensorValue := floatOfInt env.sensor_read } with h | h
          · exact absurd (List.mem_append_left _ h) hno'
          · rw [h]
        · simp [hb]
    | ELECT_BROADCAST_EVENT =>
        by_cases hr : s.running = true
        · exfalso
          apply hno'
          simp [dispatch, hty, hr, reset_effects]
        · have hr' : s.running = false := by simpa using hr
          rw [dispatch_broadcast_unsettled N env m s hty hr']
          rcases hcond with hg | hne
          · simp only [hg]
            exact le_max_left _ _
          · exact absurd hty hne
    | ELECT_LEADER_ALIVE_EVENT =>
        simp only [dispatch, hty]
        rw [startTimer_latestReceivedIP]
    | ELECT_LEADER_TIMEOUT_EVENT =>
        exfalso
        apply hno'
        simp [dispatch, hty, reset_effects]
    | ELECT_NODES_EVENT =>
        simp only [dispatch, hty]
        split
        · exact le_refl _
        · rw [startTimer_latestReceivedIP]
    | ELECT_SENSOR_EVENT =>
        simp only [dispatch, hty]
        split
        · split <;> exact le_refl _
        · exact le_refl _
    | ELECT_LEADER_THRESHOLD_EVENT =>
        simp only [dispatch, hty]
        split <;> exact le_refl _
    | unknown c =>
        simp only [dispatch, hty]
        exact le_refl _
  · intro hty hr hg
    rw [handle_fst, dispatch_broadcast_unsettled N env m s hty hr]
    simp [hg]

/-- C5 (amended) at a concrete input: own address 10, broadcasts 5 then 7. -/
theorem C5_highest_seen_monotone_after_first_witness :
    (handle 8 quietEnv (broadcastMsg 5) (start 8 10)).1.latestReceivedIP ≤
      (handle 8 quietEnv (broadcastMsg 7)
        (handle 8 quietEnv (broadcastMsg 5) (start 8 10)).1).1.latestReceivedIP ∧
    (handle 8 quietEnv (broadcastMsg 5) (start 8 10)).1.latestReceivedIP
      = (broadcastMsg 5).addr :=
  ⟨(C5_highest_seen_monotone_after_first 8 quietEnv (broadcastMsg 7)
      (handle 8 quietEnv (broadcastMsg 5) (start 8 10)).1).1 (by decide) (by decide),
    (C5_highest_seen_monotone_after_first 8 quietEnv (broadcastMsg 5) (start 8 10)).2
      rfl rfl rfl⟩


/-! ### Leader and follower in one round -/

/-- C6 (the code at the failing input): with own address 10, from the start
state, the events BROADCAST(20), LEADER_THRESHOLD, NODE_REGISTRATION(5) are
handled without any call of `reset()`; the threshold handler sends
`coap_put_node(20, 10)` and the registration handler then sets `amITheBoss`.
The same holds with the registration handled before the threshold. -/
theorem C6_leader_while_registered_follower :
    (run 8 (start 8 10)
      [(quietEnv, broadcastMsg 20), (quietEnv, plainMsg .ELECT_LEADER_THRESHOLD_EVENT),
        (quietEnv, nodesMsg 5)]).1.amITheBoss = true ∧
    registeredSinceReset (run 8 (start 8 10)
      [(quietEnv, broadcastMsg 20), (quietEnv, plainMsg .ELECT_LEADER_THRESHOLD_EVENT),
        (quietEnv, nodesMsg 5)]).2 = true ∧
    Effect.coap_put_node 20 10 ∈ (run 8 (start 8 10)
      [(quietEnv, broadcastMsg 20), (quietEnv, plainMsg .ELECT_LEADER_THRESHOLD_EVENT),
        (quietEnv, nodesMsg 5)]).2 ∧
    Effect.enter_reset ∉ (run 8 (start 8 10)
      [(quietEnv, broadcastMsg 20), (quietEnv, plainMsg .ELECT_LEADER_THRESHOLD_EVENT),
        (quietEnv, nodesMsg 5)]).2 ∧
    (run 8 (start 8 10)
      [(quietEnv, broadcastMsg 20), (quietEnv, nodesMsg 5),
        (quietEnv, plainMsg .ELECT_LEADER_THRESHOLD_EVENT)]).1.amITheBoss = true ∧
    registeredSinceReset (run 8 (start 8 10)
      [(quietEnv, broadcastMsg 20), (quietEnv, nodesMsg 5),
        (quietEnv, plainMsg .ELECT_LEADER_THRESHOLD_EVENT)]).2 = true := by
  decide

/-! ### Roster bound -/

theorem startTimer_nodes (t : EventType) (s : State) :
    (startTimer t s).1.nodes = s.nodes := by
  cases t <;> rfl

theorem startTimer_currentNumNodes (t : EventType) (s : State) :
    (startTimer t s).1.currentNumNodes = s.currentNumNodes := by
  cases t <;> rfl

/-- The polling loop ends in the state it started in or in the state
`reset()` makes of it. -/
theorem pollNodes_state (env : Env) (n : Nat) :
    ∀ (i : Nat) (s : State),
      (pollNodes env n i s).1 = s ∨ (pollNodes env n i s).1 = (reset s).1 := by
  induction n with
  | zero => intro i s; left; rfl
  | succ n ih =>
      intro i s
      by_cases h : env.coap_get_sensor i ≠ 0
      · right
        simp [pollNodes, h]
      · simp only [pollNodes, h, if_false]
        exact ih (i + 1) s

/-- What one handler run can do to the roster: leave the array alone and keep
or zero the size, or (an accepted registration) write the received address at
index `currentNumNodes` and increment the size. -/
theorem handle_roster_cases (N : Nat) (env : Env) (m : Msg) (s : State) :
    ((handle N env m s).1.nodes = s.nodes ∧
      ((handle N env m s).1.currentNumNodes = s.currentNumNodes ∨
        (handle N env m s).1.currentNumNodes = 0)) ∨
    (m.type = .ELECT_NODES_EVENT ∧ s.currentNumNodes < N ∧
      (handle N env m s).1.nodes = s.nodes.set s.currentNumNodes m.addr ∧
      (handle N env m s).1.currentNumNodes = (s.currentNumNodes + 1) % 256) := by
  rw [handle_fst]
  cases hty : m.type with
  | ELECT_INTERVAL_EVENT =>
      left
      simp only [dispatch, hty]
      rw [startTimer_nodes, startTimer_currentNumNodes]
      by_cases hb : s.amITheBoss = true
      · rw [if_pos hb]
        rcases pollNodes_state env s.currentNumNodes 0
            { s with sensorValue := floatOfInt env.sensor_read } with h | h
        · rw [h]; exact ⟨rfl, Or.inl rfl⟩
        · rw [h]; exact ⟨rfl, Or.inr rfl⟩
      · rw [if_neg hb]; exact ⟨rfl, Or.inl rfl⟩
  | ELECT_BROADCAST_EVENT =>
      left
      by_cases hr : s.running = true
      · simp only [dispatch, hty]
        rw [if_pos hr]
        exact ⟨rfl, Or.inr rfl⟩
      · have hr' : s.running = false := by simpa using hr
        rw [dispatch_broadcast_unsettled N env m s hty hr']
        exact ⟨rfl, Or.inl rfl⟩
  | ELECT_LEADER_ALIVE_EVENT =>
      left
      simp only [dispatch, hty]
      rw [startTimer_nodes, startTimer_currentNumNodes]
      exact ⟨rfl, Or.inl rfl⟩
  | ELECT_LEADER_TIMEOUT_EVENT =>
      left
      simp only [dispatch, hty]
      exact ⟨rfl, Or.inr rfl⟩
  | ELECT_NODES_EVENT =>
      by_cases hc : s.currentNumNodes ≥ N
      · left
        simp only [dispatch, hty]
        rw [if_pos hc]
        exact ⟨rfl, Or.inl rfl⟩
      · right
        simp only [dispatch, hty]
        rw [if_neg hc, startTimer_nodes, startTimer_currentNumNodes]
        exact ⟨trivial, Nat.lt_of_not_ge hc, rfl, rfl⟩
  | ELECT_SENSOR_EVENT =>
      left
      simp only [dispatch, hty]
      by_cases hb : s.amITheBoss = true
      · rw [if_pos hb]
        by_cases hq : (s.sensorsNumReceived + 1) % 256 = s.currentNumNodes
        · rw [if_pos hq]; exact ⟨rfl, Or.inl rfl⟩
        · rw [if_neg hq]; exact ⟨rfl, Or.inl rfl⟩
      · rw [if_neg hb]; exact ⟨rfl, Or.inl rfl⟩
  | ELECT_LEADER_THRESHOLD_EVENT =>
      left
      simp only [dispatch, hty]
      split <;> exact ⟨rfl, Or.inl rfl⟩
  | unknown c =>
      left
      simp [dispatch, hty]

/-- One handler run keeps the roster size within `N` and the array length. -/
theorem handle_keeps_roster_bound (N : Nat) (env : Env) (m : Msg) (s : State)
    (hc : s.currentNumNodes ≤ N) :
    (handle N env m s).1.currentNumNodes ≤ N ∧
      (handle N env m s).1.nodes.length = s.nodes.length := by
  rcases handle_roster_cases N env m s with ⟨hn, hc' | hc'⟩ | ⟨_, hlt, hn, hc'⟩
  · rw [hn, hc']; exact ⟨hc, rfl⟩
  · rw [hn, hc']; exact ⟨Nat.zero_le N, rfl⟩
  · rw [hn, hc', List.length_set]
    exact ⟨le_trans (Nat.mod_le _ _) hlt, rfl⟩

theorem run_keeps_roster_bound (N : Nat) (evs : List (Env × Msg)) :
    ∀ s : State, s.currentNumNodes ≤ N →
      (run N s evs).1.currentNumNodes ≤ N ∧ (run N s evs).1.nodes.length = s.nodes.length := by
  induction evs with
  | nil => intro s hc; exact ⟨hc, rfl⟩
  | cons em rest ih =>
      intro s hc
      have h := handle_keeps_roster_bound N em.1 em.2 s hc
      have h' := ih (handle N em.1 em.2 s).1 h.1
      rw [run_cons]
      exact ⟨h'.1, h'.2.trans h.2⟩

/-- C7: in every state reached from `reset()` by a finite sequence of events,
whatever the environment answers, the roster size `currentNumNodes` is at
most `N` and the array `nodes` still has its `N` cells; and whatever event is
handled next either leaves `nodes` untouched or writes at the index
`currentNumNodes`, which is then below `N` and inside the array (the written
cell reads back the received address). -/
theorem C7_roster_bound (N : Nat) (s0 : State) (evs : List (Env × Msg))
    (hlen : s0.nodes.length = N) :
    (run N (reset s0).1 evs).1.currentNumNodes ≤ N ∧
    (run N (reset s0).1 evs).1.nodes.length = N ∧
    (∀ (env : Env) (m : Msg),
      (handle N env m (run N (reset s0).1 evs).1).1.nodes = (run N (reset s0).1 evs).1.nodes ∨
      ((run N (reset s0).1 evs).1.currentNumNodes < N ∧
        (handle N env m (run N (reset s0).1 evs).1).1.nodes =
          (run N (reset s0).1 evs).1.nodes.set (run N (reset s0).1 evs).1.currentNumNodes
            m.addr ∧
        (handle N env m (run N (reset s0).1 evs).1).1.nodes[
          (run N (reset s0).1 evs).1.currentNumNodes]? = some m.addr)) := by
  have h := run_keeps_roster_bound N evs (reset s0).1 (Nat.zero_le N)
  have hl : (run N (reset s0).1 evs).1.nodes.length = N := by
    rw [h.2]; exact hlen
  refine ⟨h.1, hl, ?_⟩
  intro env m
  rcases handle_roster_cases N env m (run N (reset s0).1 evs).1 with
    ⟨hn, _⟩ | ⟨_, hlt, hn, _⟩
  · left; exact hn
  · right
    refine ⟨hlt, hn, ?_⟩
    rw [hn]
    simp [List.getElem?_set, hl, hlt]

/-- C7 at a concrete input: three registrations with `N = 2`. -/
theorem C7_roster_bound_witness :
    (run 2 (reset (initial 2 10)).1
      [(quietEnv, nodesMsg 5), (quietEnv, nodesMsg 6), (quietEnv, nodesMsg 7)]).1.currentNumNodes
      ≤ 2 ∧
    (run 2 (reset (initial 2 10)).1
      [(quietEnv, nodesMsg 5), (quietEnv, nodesMsg 6), (quietEnv, nodesMsg 7)]).1.nodes.length
      = 2 :=
  have h := C7_roster_bound 2 (initial 2 10)
    [(quietEnv, nodesMsg 5), (quietEnv, nodesMsg 6), (quietEnv, nodesMsg 7)] (by decide)
  ⟨h.1, h.2.1⟩


/-! ### Capacity rejection -/

/-- C8: in every state whose roster size is at least `N`, handling a
registration event returns the state unchanged (every global and every timer
flag) and its only effects are the error report followed by the
acknowledgment `msg_reply`; in particular no timer is armed or cancelled. -/
theorem C8_capacity_rejection_atomic (N : Nat) (env : Env) (m : Msg) (s : State)
    (hm : m.type = .ELECT_NODES_EVENT) (hfull : N ≤ s.currentNumNodes) :
    handle N env m s = (s, [.log_error, .msg_reply]) := by
  simp [handle, dispatch, hm, needsReply, hfull]

/-- C8 at a concrete input: a third registration with `N = 2`. -/
theorem C8_capacity_rejection_atomic_witness :
    handle 2 quietEnv (nodesMsg 7)
        (run 2 (start 2 10) [(quietEnv, nodesMsg 5), (quietEnv, nodesMsg 6)]).1 =
      ((run 2 (start 2 10) [(quietEnv, nodesMsg 5), (quietEnv, nodesMsg 6)]).1,
        [.log_error, .msg_reply]) :=
  C8_capacity_rejection_atomic 2 quietEnv (nodesMsg 7)
    (run 2 (start 2 10) [(quietEnv, nodesMsg 5), (quietEnv, nodesMsg 6)]).1 rfl (by decide)

/-! ### Follower supervision -/

/-- C9 (counterexample): with own address 10, the start state followed by
BROADCAST(20) and LEADER_THRESHOLD is a follower state (`running`, not
`amITheBoss`, registration sent to 20) in which the leader-timeout timer is
not queued; no timer at all is queued there. -/
theorem C9_follower_without_timeout_timer :
    (run 8 (start 8 10)
      [(quietEnv, broadcastMsg 20),
        (quietEnv, plainMsg .ELECT_LEADER_THRESHOLD_EVENT)]).1.running = true ∧
    (run 8 (start 8 10)
      [(quietEnv, broadcastMsg 20),
        (quietEnv, plainMsg .ELECT_LEADER_THRESHOLD_EVENT)]).1.amITheBoss = false ∧
    Effect.coap_put_node 20 10 ∈ (run 8 (start 8 10)
      [(quietEnv, broadcastMsg 20),
        (quietEnv, plainMsg .ELECT_LEADER_THRESHOLD_EVENT)]).2 ∧
    (run 8 (start 8 10)
      [(quietEnv, broadcastMsg 20),
        (quietEnv, plainMsg .ELECT_LEADER_THRESHOLD_EVENT)]).1.leader_timeout_event = false ∧
    (run 8 (start 8 10)
      [(quietEnv, broadcastMsg 20),
        (quietEnv, plainMsg .ELECT_LEADER_THRESHOLD_EVENT)]).1.interval_event = false := by
  decide

/-- C9 (amended): the threshold handler that makes a node a follower
(`ownIP < latestReceivedIP`) only sets `running` and sends the registration;
it arms no timer, so the leader-timeout timer stays as it was.  Handling a
leader-alive event is what queues the leader-timeout timer, in any state.
Handling a leader-timeout event yields exactly what `reset()` yields, and in
that state the next interval tick emits `broadcast_id(ownIP)` and re-arms the
interval timer. -/
theorem C9_timeout_armed_by_alive_only (N : Nat) (env : Env) (m : Msg) (s : State) :
    (m.type = .ELECT_LEADER_THRESHOLD_EVENT → s.ownIP < s.latestReceivedIP →
      handle N env m s =
        ({ s with running := true }, [.coap_put_node s.latestReceivedIP s.ownIP])) ∧
    (m.type = .ELECT_LEADER_ALIVE_EVENT →
      handle N env m s =
        ({ s with leader_timeout_event := true },
          [.evtimer_del .leader_timeout_event, .evtimer_add_msg .leader_timeout_event,
            .msg_reply])) ∧
    (m.type = .ELECT_LEADER_TIMEOUT_EVENT →
      handle N env m s = reset s ∧
      (handle N env m s).1.running = false ∧ (handle N env m s).1.amITheBoss = false) ∧
    (m.type = .ELECT_INTERVAL_EVENT →
      (handle N env m (reset s).1).2 =
        [.broadcast_id s.ownIP, .evtimer_del .interval_event,
          .evtimer_add_msg .interval_event]) := by
  refine ⟨?_, ?_, ?_, ?_⟩
  · intro hm h
    simp [handle, dispatch, hm, needsReply, ipv6_addr_cmp_neg, h]
  · intro hm
    simp [handle, dispatch, hm, needsReply, startTimer, evtimer_del, evtimer_add_msg]
  · intro hm
    have h : handle N env m s = reset s := by
      simp [handle, dispatch, hm, needsReply]
    rw [h]
    exact ⟨rfl, rfl, rfl⟩
  · intro hm
    simp [handle, dispatch, hm, needsReply, reset_state, startTimer]

/-- C9 (amended) at a concrete input: own address 10, highest seen 20. -/
theorem C9_timeout_armed_by_alive_only_witness :
    handle 8 quietEnv (plainMsg .ELECT_LEADER_THRESHOLD_EVENT)
        (handle 8 quietEnv (broadcastMsg 20) (start 8 10)).1 =
      ({ (handle 8 quietEnv (broadcastMsg 20) (start 8 10)).1 with running := true },
        [.coap_put_node 20 10]) ∧
    (handle 8 quietEnv (plainMsg .ELECT_LEADER_ALIVE_EVENT) (start 8 10)).1.leader_timeout_event
      = true ∧
    handle 8 quietEnv (plainMsg .ELECT_LEADER_TIMEOUT_EVENT) (start 8 10) = reset (start 8 10) ∧
    (handle 8 quietEnv (plainMsg .ELECT_INTERVAL_EVENT) (reset (start 8 10)).1).2 =
      [.broadcast_id 10, .evtimer_del .interval_event, .evtimer_add_msg .interval_event] :=
  ⟨(C9_timeout_armed_by_alive_only 8 quietEnv (plainMsg .ELECT_LEADER_THRESHOLD_EVENT)
      (handle 8 quietEnv (broadcastMsg 20) (start 8 10)).1).1 rfl (by decide),
    by
      rw [(C9_timeout_armed_by_alive_only 8 quietEnv (plainMsg .ELECT_LEADER_ALIVE_EVENT)
        (start 8 10)).2.1 rfl],
    ((C9_timeout_armed_by_alive_only 8 quietEnv (plainMsg .ELECT_LEADER_TIMEOUT_EVENT)
      (start 8 10)).2.2.1 rfl).1,
    (C9_timeout_armed_by_alive_only 8 quietEnv (plainMsg .ELECT_INTERVAL_EVENT)
      (start 8 10)).2.2.2 rfl⟩

/-! ### Acknowledgments -/

theorem startTimer_no_reply (t : EventType) (s : State) :
    Effect.msg_reply ∉ (startTimer t s).2 := by
  cases t <;> simp [startTimer]

theorem reset_no_reply (s : State) : Effect.msg_reply ∉ (reset s).2 := by
  rw [reset_effects]; decide

theorem pollNodes_succ_fail (env : Env) (n i : Nat) (s : State)
    (h : env.coap_get_sensor i ≠ 0) :
    pollNodes env (n + 1) i s =
      ((reset s).1, Effect.coap_get_sensor (s.nodes.getD i 0) :: (reset s).2) := by
  simp [pollNodes, h]

theorem pollNodes_succ_ok (env : Env) (n i : Nat) (s : State)
    (h : env.coap_get_sensor i = 0) :
    pollNodes env (n + 1) i s =
      ((pollNodes env n (i + 1) s).1,
        Effect.coap_get_sensor (s.nodes.getD i 0) :: (pollNodes env n (i + 1) s).2) := by
  simp [pollNodes, h]

theorem pollNodes_no_reply (env : Env) (n : Nat) :
    ∀ (i : Nat) (s : State), Effect.msg_reply ∉ (pollNodes env n i s).2 := by
  induction n with
  | zero => intro i s; simp [pollNodes]
  | succ n ih =>
      intro i s
      by_cases h : env.coap_get_sensor i = 0
      · rw [pollNodes_succ_ok env n i s h]
        simpa using ih (i + 1) s
      · rw [pollNodes_succ_fail env n i s h]
        simpa using reset_no_reply s

/-- The `switch` statement itself never replies. -/
theorem dispatch_no_reply (N : Nat) (env : Env) (m : Msg) (s : State) :
    Effect.msg_reply ∉ (dispatch N env m s).2 := by
  cases hty : m.type with
  | ELECT_INTERVAL_EVENT =>
      simp only [dispatch, hty, List.mem_append, not_or]
      refine ⟨?_, startTimer_no_reply _ _⟩
      by_cases hb : s.amITheBoss = true
      · rw [if_pos hb]; exact pollNodes_no_reply _ _ _ _
      · rw [if_neg hb]; simp
  | ELECT_BROADCAST_EVENT =>
      by_cases hr : s.running = true
      · simp only [dispatch, hty]
        rw [if_pos hr]; exact reset_no_reply s
      · have hr' : s.running = false := by simpa using hr
        rw [dispatch_broadcast_unsettled N env m s hty hr']
        by_cases h1 : s.ownIP < m.addr <;>
          by_cases h2 : (s.gotNeverMessage = true ∨ s.latestReceivedIP < m.addr) <;>
          simp [h1, h2]
  | ELECT_LEADER_ALIVE_EVENT =>
      simp only [dispatch, hty]; exact startTimer_no_reply _ _
  | ELECT_LEADER_TIMEOUT_EVENT =>
      simp only [dispatch, hty]; exact reset_no_reply s
  | ELECT_NODES_EVENT =>
      simp only [dispatch, hty]
      split
      · simp
      · exact startTimer_no_reply _ _
  | ELECT_SENSOR_EVENT =>
      simp only [dispatch, hty]
      split
      · split <;> simp
      · simp
  | ELECT_LEADER_THRESHOLD_EVENT =>
      simp only [dispatch, hty]
      split <;> simp
  | unknown c => simp [dispatch, hty]

/-- C10: for every state, environment and message (of any type, recognised
or not, whichever branch its handler takes), handling the message calls
`msg_reply` exactly once when the message type is none of the interval,
leader-timeout and leader-threshold events, and never when it is one of
these three. -/
theorem C10_acknowledgment_discipline (N : Nat) (env : Env) (m : Msg) (s : State) :
    (handle N env m s).2.count Effect.msg_reply =
      if m.type = .ELECT_INTERVAL_EVENT ∨ m.type = .ELECT_LEADER_TIMEOUT_EVENT ∨
          m.type = .ELECT_LEADER_THRESHOLD_EVENT then 0
      else 1 := by
  have h0 : (dispatch N env m s).2.count Effect.msg_reply = 0 :=
    List.count_eq_zero.mpr (dispatch_no_reply N env m s)
  simp only [handle, List.count_append, h0, Nat.zero_add]
  cases hty : m.type <;> simp [needsReply]


/-! ### Polling -/

theorem fetches_succ (s : State) (i n : Nat) :
    fetches s i (n + 1) =
      Effect.coap_get_sensor (s.nodes.getD i 0) :: fetches s (i + 1) n := by
  simp only [fetches, List.range_succ_eq_map, List.map_cons, List.map_map, Nat.add_zero]
  congr 1
  apply List.map_congr_left
  intro k _
  simp [Function.comp, Nat.add_assoc, Nat.add_comm 1 k]

/-- The polling loop when every fetch is issued successfully. -/
theorem pollNodes_all_ok (env : Env) (n : Nat) :
    ∀ (i : Nat) (s : State), (∀ k, k < n → env.coap_get_sensor (i + k) = 0) →
      pollNodes env n i s = (s, fetches s i n) := by
  induction n with
  | zero => intro i s _; rfl
  | succ n ih =>
      intro i s h
      have h0 : env.coap_get_sensor i = 0 := by simpa using h 0 (Nat.succ_pos n)
      have hrest : ∀ k, k < n → env.coap_get_sensor (i + 1 + k) = 0 := by
        intro k hk
        have := h (k + 1) (Nat.succ_lt_succ hk)
        rwa [Nat.add_assoc, Nat.add_comm 1 k]
      rw [pollNodes_succ_ok env n i s h0, ih (i + 1) s hrest, fetches_succ]

/-- The polling loop when the fetch at offset `j` is the first that fails. -/
theorem pollNodes_first_fail (env : Env) (j : Nat) :
    ∀ (n i : Nat) (s : State), j < n → (∀ k, k < j → env.coap_get_sensor (i + k) = 0) →
      env.coap_get_sensor (i + j) ≠ 0 →
      pollNodes env n i s = ((reset s).1, fetches s i (j + 1) ++ (reset s).2) := by
  induction j with
  | zero =>
      intro n i s hn _ hf
      obtain ⟨n', rfl⟩ : ∃ n', n = n' + 1 := ⟨n - 1, by omega⟩
      rw [pollNodes_succ_fail env n' i s (by simpa using hf), fetches_succ]
      rfl
  | succ j ih =>
      intro n i s hn hok hf
      obtain ⟨n', rfl⟩ : ∃ n', n = n' + 1 := ⟨n - 1, by omega⟩
      have h0 : env.coap_get_sensor i = 0 := by simpa using hok 0 (Nat.succ_pos j)
      have hrest : ∀ k, k < j → env.coap_get_sensor (i + 1 + k) = 0 := by
        intro k hk
        have := hok (k + 1) (Nat.succ_lt_succ hk)
        rwa [Nat.add_assoc, Nat.add_comm 1 k]
      have hf' : env.coap_get_sensor (i + 1 + j) ≠ 0 := by
        rwa [Nat.add_assoc, Nat.add_comm 1 j]
      rw [pollNodes_succ_ok env n' i s h0,
        ih n' (i + 1) s (Nat.lt_of_succ_lt_succ hn) hrest hf', fetches_succ (n := j + 1)]
      rfl

/-- The interval handler of a leader. -/
theorem handle_interval_leader (N : Nat) (env : Env) (m : Msg) (s : State)
    (hm : m.type = .ELECT_INTERVAL_EVENT) (hb : s.amITheBoss = true) :
    handle N env m s =
      ((startTimer .ELECT_INTERVAL_EVENT
          (pollNodes env s.currentNumNodes 0
            { s with sensorValue := floatOfInt env.sensor_read }).1).1,
        (pollNodes env s.currentNumNodes 0
            { s with sensorValue := floatOfInt env.sensor_read }).2 ++
          [.evtimer_del .interval_event, .evtimer_add_msg .interval_event]) := by
  simp only [handle, dispatch, hm]
  rw [if_pos hb]
  simp [needsReply, startTimer]

/-- C11: a leader handles an interval tick.  If some fetch to a roster entry
fails, there is a first failing index `j`; fetches are issued to the entries
`0 .. j` in roster order and to none after, `reset()` runs, and the resulting
state is a candidate (`amITheBoss` and `running` false, roster size 0,
`latestReceivedIP = ownIP`, received count 0) with the interval and threshold
timers queued.  If every fetch is issued successfully, fetches go to all
roster entries in order, the node stays leader with the roster unchanged and
the interval timer is re-armed. -/
theorem C11_leader_abdicates_on_fetch_failure (N : Nat) (env : Env) (m : Msg) (s : State)
    (hm : m.type = .ELECT_INTERVAL_EVENT) (hb : s.amITheBoss = true) :
    ((∃ i, i < s.currentNumNodes ∧ env.coap_get_sensor i ≠ 0) →
      ∃ j, j < s.currentNumNodes ∧ env.coap_get_sensor j ≠ 0 ∧
        (∀ k, k < j → env.coap_get_sensor k = 0) ∧
        (handle N env m s).2 =
          fetches s 0 (j + 1) ++ (reset s).2 ++
            [.evtimer_del .interval_event, .evtimer_add_msg .interval_event] ∧
        (handle N env m s).1 = (reset { s with sensorValue := floatOfInt env.sensor_read }).1 ∧
        (handle N env m s).1.amITheBoss = false ∧ (handle N env m s).1.running = false ∧
        (handle N env m s).1.currentNumNodes = 0 ∧
        (handle N env m s).1.latestReceivedIP = s.ownIP ∧
        (handle N env m s).1.sensorsNumReceived = 0 ∧
        (handle N env m s).1.interval_event = true ∧
        (handle N env m s).1.leader_threshold_event = true) ∧
    ((∀ i, i < s.currentNumNodes → env.coap_get_sensor i = 0) →
      handle N env m s =
        ({ s with sensorValue := floatOfInt env.sensor_read, interval_event := true },
          fetches s 0 s.currentNumNodes ++
            [.evtimer_del .interval_event, .evtimer_add_msg .interval_event]) ∧
      (handle N env m s).1.amITheBoss = true ∧
      (handle N env m s).1.nodes = s.nodes ∧
      (handle N env m s).1.currentNumNodes = s.currentNumNodes) := by
  have hh := handle_interval_leader N env m s hm hb
  constructor
  · intro hex
    classical
    have hj := Nat.find_spec hex
    have hmin : ∀ k, k < Nat.find hex → env.coap_get_sensor k = 0 := by
      intro k hk
      by_contra hne
      exact Nat.find_min hex hk ⟨lt_trans hk hj.1, hne⟩
    refine ⟨Nat.find hex, hj.1, hj.2, hmin, ?_⟩
    have hp := pollNodes_first_fail env (Nat.find hex) s.currentNumNodes 0
      { s with sensorValue := floatOfInt env.sensor_read } hj.1
      (by intro k hk; rw [Nat.zero_add]; exact hmin k hk)
      (by rw [Nat.zero_add]; exact hj.2)
    rw [hh, hp]
    refine ⟨rfl, rfl, rfl, rfl, rfl, rfl, rfl, rfl, rfl⟩
  · intro hall
    have hp := pollNodes_all_ok env s.currentNumNodes 0
      { s with sensorValue := floatOfInt env.sensor_read }
      (by intro k hk; rw [Nat.zero_add]; exact hall k hk)
    rw [hh, hp]
    refine ⟨rfl, hb, rfl, rfl⟩


/-- C11 at concrete inputs: the leader with roster 1, 2, 3 and local reading
7, once with the fetch to the second entry failing and once with every fetch
issued. -/
theorem C11_leader_abdicates_on_fetch_failure_witness :
    (∃ j, j < leaderOfThree.currentNumNodes ∧ (failAt 7 1).coap_get_sensor j ≠ 0 ∧
        (∀ k, k < j → (failAt 7 1).coap_get_sensor k = 0) ∧
        (handle 8 (failAt 7 1) (plainMsg .ELECT_INTERVAL_EVENT) leaderOfThree).2 =
          fetches leaderOfThree 0 (j + 1) ++ (reset leaderOfThree).2 ++
            [.evtimer_del .interval_event, .evtimer_add_msg .interval_event] ∧
        (handle 8 (failAt 7 1) (plainMsg .ELECT_INTERVAL_EVENT) leaderOfThree).1 =
          (reset { leaderOfThree with sensorValue := floatOfInt (failAt 7 1).sensor_read }).1 ∧
        (handle 8 (failAt 7 1) (plainMsg .ELECT_INTERVAL_EVENT) leaderOfThree).1.amITheBoss
          = false ∧
        (handle 8 (failAt 7 1) (plainMsg .ELECT_INTERVAL_EVENT) leaderOfThree).1.running
          = false ∧
        (handle 8 (failAt 7 1) (plainMsg .ELECT_INTERVAL_EVENT) leaderOfThree).1.currentNumNodes
          = 0 ∧
        (handle 8 (failAt 7 1) (plainMsg .ELECT_INTERVAL_EVENT) leaderOfThree).1.latestReceivedIP
          = leaderOfThree.ownIP ∧
        (handle 8 (failAt 7 1)
          (plainMsg .ELECT_INTERVAL_EVENT) leaderOfThree).1.sensorsNumReceived = 0 ∧
        (handle 8 (failAt 7 1) (plainMsg .ELECT_INTERVAL_EVENT) leaderOfThree).1.interval_event
          = true ∧
        (handle 8 (failAt 7 1)
          (plainMsg .ELECT_INTERVAL_EVENT) leaderOfThree).1.leader_threshold_event = true) ∧
    (handle 8 (readingEnv 7) (plainMsg .ELECT_INTERVAL_EVENT) leaderOfThree).1.amITheBoss
      = true ∧
    (handle 8 (readingEnv 7) (plainMsg .ELECT_INTERVAL_EVENT) leaderOfThree).1.nodes
      = leaderOfThree.nodes :=
  ⟨(C11_leader_abdicates_on_fetch_failure 8 (failAt 7 1) (plainMsg .ELECT_INTERVAL_EVENT)
      leaderOfThree rfl (by decide)).1 ⟨1, by decide, by decide⟩,
    ((C11_leader_abdicates_on_fetch_failure 8 (readingEnv 7) (plainMsg .ELECT_INTERVAL_EVENT)
      leaderOfThree rfl (by decide)).2 (fun _ _ => rfl)).2.1,
    ((C11_leader_abdicates_on_fetch_failure 8 (readingEnv 7) (plainMsg .ELECT_INTERVAL_EVENT)
      leaderOfThree rfl (by decide)).2 (fun _ _ => rfl)).2.2.1⟩

/-! ### Broadcast handling in detail -/

/-- One iteration of the loop for a broadcast received by an unsettled node. -/
theorem handle_broadcast_unsettled (N : Nat) (env : Env) (m : Msg) (s : State)
    (hm : m.type = .ELECT_BROADCAST_EVENT) (hr : s.running = false) :
    handle N env m s =
      ({ s with
          gotNeverMessage := false,
          latestReceivedIP :=
            if s.gotNeverMessage then m.addr else max s.latestReceivedIP m.addr,
          interval_event := if s.ownIP < m.addr then false else s.interval_event,
          leader_threshold_event :=
            if s.gotNeverMessage ∨ s.latestReceivedIP < m.addr then true
            else s.leader_threshold_event },
        (if s.ownIP < m.addr then [.evtimer_del .interval_event] else []) ++
        (if s.gotNeverMessage ∨ s.latestReceivedIP < m.addr then
          [.evtimer_del .leader_threshold_event, .evtimer_add_msg .leader_threshold_event]
        else []) ++ [.msg_reply]) := by
  simp only [handle, dispatch_broadcast_unsettled N env m s hm hr, hm]
  simp [needsReply]

/-- C12: from the state right after `reset()`, broadcasts with addresses
`A1 < A2 < A3` handled in that order each delete and re-add the threshold
timer exactly once (besides the deletion of the interval timer when the
address is above the own one, and the reply); afterwards the threshold timer
is queued, the node is unsettled and `latestReceivedIP = A3`.  In any
unsettled state that has already seen a broadcast, a broadcast of `A`
restarts the threshold timer and records `A` when `A` is above
`latestReceivedIP`, and otherwise touches neither. -/
theorem C12_threshold_convergence (N : Nat) (s0 s : State) (e1 e2 e3 env : Env)
    (m1 m2 m3 m : Msg)
    (h1 : m1.type = .ELECT_BROADCAST_EVENT) (h2 : m2.type = .ELECT_BROADCAST_EVENT)
    (h3 : m3.type = .ELECT_BROADCAST_EVENT) (h12 : m1.addr < m2.addr)
    (h23 : m2.addr < m3.addr)
    (hm : m.type = .ELECT_BROADCAST_EVENT) (hr : s.running = false)
    (hg : s.gotNeverMessage = false) :
    (handle N e1 m1 (reset s0).1).2 =
      (if s0.ownIP < m1.addr then [.evtimer_del .interval_event] else []) ++
        [.evtimer_del .leader_threshold_event, .evtimer_add_msg .leader_threshold_event,
          .msg_reply] ∧
    (handle N e2 m2 (handle N e1 m1 (reset s0).1).1).2 =
      (if s0.ownIP < m2.addr then [.evtimer_del .interval_event] else []) ++
        [.evtimer_del .leader_threshold_event, .evtimer_add_msg .leader_threshold_event,
          .msg_reply] ∧
    (handle N e3 m3 (handle N e2 m2 (handle N e1 m1 (reset s0).1).1).1).2 =
      (if s0.ownIP < m3.addr then [.evtimer_del .interval_event] else []) ++
        [.evtimer_del .leader_threshold_event, .evtimer_add_msg .leader_threshold_event,
          .msg_reply] ∧
    (handle N e3 m3
      (handle N e2 m2 (handle N e1 m1 (reset s0).1).1).1).1.leader_threshold_event = true ∧
    (handle N e3 m3 (handle N e2 m2 (handle N e1 m1 (reset s0).1).1).1).1.running = false ∧
    (handle N e3 m3 (handle N e2 m2 (handle N e1 m1 (reset s0).1).1).1).1.latestReceivedIP
      = m3.addr ∧
    (s.latestReceivedIP < m.addr →
      (handle N env m s).2 =
        (if s.ownIP < m.addr then [.evtimer_del .interval_event] else []) ++
          [.evtimer_del .leader_threshold_event, .evtimer_add_msg .leader_threshold_event,
            .msg_reply] ∧
      (handle N env m s).1.latestReceivedIP = m.addr ∧
      (handle N env m s).1.leader_threshold_event = true) ∧
    (¬ s.latestReceivedIP < m.addr →
      (handle N env m s).2 =
        (if s.ownIP < m.addr then [.evtimer_del .interval_event] else []) ++ [.msg_reply] ∧
      (handle N env m s).1.latestReceivedIP = s.latestReceivedIP ∧
      (handle N env m s).1.leader_threshold_event = s.leader_threshold_event) := by
  have ha := handle_broadcast_unsettled N e1 m1 (reset s0).1 h1 rfl
  have hra : (handle N e1 m1 (reset s0).1).1.running = false := by rw [ha]; rfl
  have hb := handle_broadcast_unsettled N e2 m2 (handle N e1 m1 (reset s0).1).1 h2 hra
  have hrb : (handle N e2 m2 (handle N e1 m1 (reset s0).1).1).1.running = false := by
    rw [hb]; exact hra
  have hc := handle_broadcast_unsettled N e3 m3
    (handle N e2 m2 (handle N e1 m1 (reset s0).1).1).1 h3 hrb
  have hga : (handle N e1 m1 (reset s0).1).1.gotNeverMessage = false := by rw [ha]
  have hgb : (handle N e2 m2 (handle N e1 m1 (reset s0).1).1).1.gotNeverMessage = false := by
    rw [hb]
  have hoa : (handle N e1 m1 (reset s0).1).1.ownIP = s0.ownIP := by rw [ha]; rfl
  have hob : (handle N e2 m2 (handle N e1 m1 (reset s0).1).1).1.ownIP = s0.ownIP := by
    rw [hb]; exact hoa
  have hla : (handle N e1 m1 (reset s0).1).1.latestReceivedIP = m1.addr := by
    rw [ha]; simp [reset_state]
  have hlb : (handle N e2 m2 (handle N e1 m1 (reset s0).1).1).1.latestReceivedIP
      = m2.addr := by
    rw [hb]; simp [hga, hla, Nat.le_of_lt h12]
  have hd := handle_broadcast_unsettled N env m s hm hr
  refine ⟨?_, ?_, ?_, ?_, ?_, ?_, ?_, ?_⟩
  · rw [ha]; simp [reset_state]
  · rw [hb]; simp [hoa, hga, hla, h12]
  · rw [hc]; simp [hob, hgb, hlb, h23]
  · rw [hc]; simp [hgb, hlb, h23]
  · rw [hc]; exact hrb
  · rw [hc]; simp [hgb, hlb, Nat.le_of_lt h23]
  · intro hlt
    rw [hd]
    simp [hg, hlt, Nat.le_of_lt hlt]
  · intro hnlt
    rw [hd]
    simp [hg, hnlt, Nat.le_of_not_lt hnlt]

/-- C12 at a concrete input: own address 10, broadcasts 5, 20, 30, and a
further broadcast 25. -/
theorem C12_threshold_convergence_witness :
    (handle 8 quietEnv (broadcastMsg 30)
      (handle 8 quietEnv (broadcastMsg 20)
        (handle 8 quietEnv (broadcastMsg 5) (reset (initial 8 10)).1).1).1).1.latestReceivedIP
      = 30 ∧
    (handle 8 quietEnv (broadcastMsg 30)
      (handle 8 quietEnv (broadcastMsg 20)
        (handle 8 quietEnv (broadcastMsg 5)
          (reset (initial 8 10)).1).1).1).1.leader_threshold_event = true ∧
    (handle 8 quietEnv (broadcastMsg 25)
      (handle 8 quietEnv (broadcastMsg 20) (start 8 10)).1).1.latestReceivedIP = 25 :=
  have h := C12_threshold_convergence 8 (initial 8 10)
    (handle 8 quietEnv (broadcastMsg 20) (start 8 10)).1 quietEnv quietEnv quietEnv quietEnv
    (broadcastMsg 5) (broadcastMsg 20) (broadcastMsg 30) (broadcastMsg 25)
    rfl rfl rfl (by decide) (by decide) rfl (by decide) (by decide)
  ⟨h.2.2.2.2.2.1, h.2.2.2.1, (h.2.2.2.2.2.2.1 (by decide)).2.1⟩

/-- C13: in every settled state (`running = true`, leader or follower) a
broadcast of any address is handled as `reset()` followed by the reply: the
resulting state is exactly the one `reset()` produces (candidate, roster size
0, `latestReceivedIP = ownIP`, interval and threshold timers queued, timeout
timer not queued), the effects are those of `reset()` and `msg_reply`, and
neither depends on the address received. -/
theorem C13_broadcast_while_settled_resets (N : Nat) (env env' : Env) (m m' : Msg) (s : State)
    (hm : m.type = .ELECT_BROADCAST_EVENT) (hm' : m'.type = .ELECT_BROADCAST_EVENT)
    (hr : s.running = true) :
    handle N env m s = ((reset s).1, (reset s).2 ++ [.msg_reply]) ∧
    (handle N env m s).1.amITheBoss = false ∧ (handle N env m s).1.running = false ∧
    (handle N env m s).1.currentNumNodes = 0 ∧
    (handle N env m s).1.latestReceivedIP = s.ownIP ∧
    (handle N env m s).1.interval_event = true ∧
    (handle N env m s).1.leader_threshold_event = true ∧
    (handle N env m s).1.leader_timeout_event = false ∧
    handle N env' m' s = handle N env m s := by
  have h : ∀ (e : Env) (x : Msg), x.type = .ELECT_BROADCAST_EVENT →
      handle N e x s = ((reset s).1, (reset s).2 ++ [.msg_reply]) := by
    intro e x hx
    simp only [handle, dispatch, hx]
    rw [if_pos hr]
    simp [needsReply]
  rw [h env m hm, h env' m' hm']
  exact ⟨rfl, rfl, rfl, rfl, rfl, rfl, rfl, rfl, rfl⟩

/-- C13 at a concrete input: the leader with roster 1, 2, 3 (own address 10)
receives broadcasts of 99 and of 4. -/
theorem C13_broadcast_while_settled_resets_witness :
    handle 8 quietEnv (broadcastMsg 99) leaderOfThree =
      ((reset leaderOfThree).1, (reset leaderOfThree).2 ++ [.msg_reply]) ∧
    (handle 8 quietEnv (broadcastMsg 99) leaderOfThree).1.latestReceivedIP
      = leaderOfThree.ownIP ∧
    (handle 8 quietEnv (broadcastMsg 99) leaderOfThree).1.interval_event = true ∧
    handle 8 quietEnv (broadcastMsg 4) leaderOfThree =
      handle 8 quietEnv (broadcastMsg 99) leaderOfThree :=
  have h := C13_broadcast_while_settled_resets 8 quietEnv quietEnv (broadcastMsg 99)
    (broadcastMsg 4) leaderOfThree rfl rfl (by decide)
  ⟨h.1, h.2.2.2.2.1, h.2.2.2.2.2.1, h.2.2.2.2.2.2.2.2⟩


/-! ### The threshold handler -/

/-- C14 (the code at the failing input): whenever `ownIP < latestReceivedIP`
the threshold handler sets `running`, sends the one registration
`coap_put_node(latestReceivedIP, ownIP)` and changes nothing else, so
`amITheBoss` keeps its value.  With own address 10, the start state followed
by BROADCAST(20) and NODE_REGISTRATION(5) is reached without any `reset()`,
has `ownIP < latestReceivedIP` and `amITheBoss = true`; after the threshold
event the node has registered with 20 and is still leader, not follower. -/
theorem C14_threshold_leaves_leader_flag :
    (∀ (N : Nat) (env : Env) (m : Msg) (s : State),
      m.type = .ELECT_LEADER_THRESHOLD_EVENT → s.ownIP < s.latestReceivedIP →
      handle N env m s =
        ({ s with running := true }, [.coap_put_node s.latestReceivedIP s.ownIP]) ∧
      (handle N env m s).1.amITheBoss = s.amITheBoss) ∧
    (run 8 (start 8 10) [(quietEnv, broadcastMsg 20), (quietEnv, nodesMsg 5)]).1.ownIP <
      (run 8 (start 8 10)
        [(quietEnv, broadcastMsg 20), (quietEnv, nodesMsg 5)]).1.latestReceivedIP ∧
    Effect.enter_reset ∉
      (run 8 (start 8 10) [(quietEnv, broadcastMsg 20), (quietEnv, nodesMsg 5)]).2 ∧
    handle 8 quietEnv (plainMsg .ELECT_LEADER_THRESHOLD_EVENT)
        (run 8 (start 8 10) [(quietEnv, broadcastMsg 20), (quietEnv, nodesMsg 5)]).1 =
      ((run 8 (start 8 10) [(quietEnv, broadcastMsg 20), (quietEnv, nodesMsg 5)]).1,
        [.coap_put_node 20 10]) ∧
    (handle 8 quietEnv (plainMsg .ELECT_LEADER_THRESHOLD_EVENT)
        (run 8 (start 8 10)
          [(quietEnv, broadcastMsg 20), (quietEnv, nodesMsg 5)]).1).1.running = true ∧
    (handle 8 quietEnv (plainMsg .ELECT_LEADER_THRESHOLD_EVENT)
        (run 8 (start 8 10)
          [(quietEnv, broadcastMsg 20), (quietEnv, nodesMsg 5)]).1).1.amITheBoss = true := by
  refine ⟨?_, by decide, by decide, by decide, by decide, by decide⟩
  intro N env m s hm h
  rw [handle_threshold_lower N env m s hm h]
  exact ⟨rfl, rfl⟩

/-- The threshold handler when no higher address is recorded. -/
theorem handle_threshold_alone (N : Nat) (env : Env) (m : Msg) (s : State)
    (hm : m.type = .ELECT_LEADER_THRESHOLD_EVENT) (h : s.latestReceivedIP ≤ s.ownIP) :
    handle N env m s = (s, [.log_warning]) := by
  simp [handle, dispatch, hm, needsReply, ipv6_addr_cmp_neg, Nat.not_lt.mpr h]

/-- Broadcasts of addresses below the own one leave the interval timer
queued, the node unsettled and `latestReceivedIP` at most `ownIP`. -/
theorem run_lower_broadcasts (N : Nat) (ms : List (Env × Msg)) :
    ∀ s : State,
      (∀ em ∈ ms, em.2.type = .ELECT_BROADCAST_EVENT ∧ em.2.addr < s.ownIP) →
      s.running = false → s.latestReceivedIP ≤ s.ownIP →
      (run N s ms).1.running = false ∧ (run N s ms).1.ownIP = s.ownIP ∧
      (run N s ms).1.latestReceivedIP ≤ s.ownIP ∧
      (run N s ms).1.interval_event = s.interval_event ∧
      Effect.evtimer_del .interval_event ∉ (run N s ms).2 := by
  induction ms with
  | nil => intro s _ hr hl; simp [run_nil, hr, hl]
  | cons em rest ih =>
      intro s hb hr hl
      obtain ⟨hty, hlow⟩ := hb em (List.mem_cons_self _ _)
      have hh := handle_broadcast_unsettled N em.1 em.2 s hty hr
      have hnot : ¬ s.ownIP < em.2.addr := Nat.not_lt.mpr (Nat.le_of_lt hlow)
      have h1 : (handle N em.1 em.2 s).1.running = false := by rw [hh]; exact hr
      have h2 : (handle N em.1 em.2 s).1.ownIP = s.ownIP := by rw [hh]
      have h3 : (handle N em.1 em.2 s).1.latestReceivedIP ≤ s.ownIP := by
        rw [hh]
        show (if s.gotNeverMessage = true then em.2.addr
          else max s.latestReceivedIP em.2.addr) ≤ s.ownIP
        split
        · exact Nat.le_of_lt hlow
        · exact max_le hl (Nat.le_of_lt hlow)
      have h4 : (handle N em.1 em.2 s).1.interval_event = s.interval_event := by
        rw [hh]; simp [hnot]
      have h5 : Effect.evtimer_del .interval_event ∉ (handle N em.1 em.2 s).2 := by
        rw [hh]
        by_cases hc : (s.gotNeverMessage = true ∨ s.latestReceivedIP < em.2.addr) <;>
          simp [hnot, hc]
      have hrest := ih (handle N em.1 em.2 s).1
        (fun x hx => by rw [h2]; exact hb x (List.mem_cons_of_mem _ hx)) h1
        (by rw [h2]; exact h3)
      rw [h2, h4] at hrest
      rw [run_cons]
      refine ⟨hrest.1, hrest.2.1, hrest.2.2.1, hrest.2.2.2.1, ?_⟩
      simp only [List.mem_append, not_or]
      exact ⟨h5, hrest.2.2.2.2⟩

/-- C15: in every state with `latestReceivedIP ≤ ownIP` the threshold handler
returns the state unchanged (flags, roster, addresses, accumulator and timer
flags) and its only effect is the warning: no registration, no other
transport call, no timer call, no reply.  In particular, after `reset()`
followed only by broadcasts of addresses below the own one, the interval
timer is still queued (no handler deleted it), `latestReceivedIP ≤ ownIP`,
and the threshold event changes nothing. -/
theorem C15_degenerate_settle_is_noop (N : Nat) (env : Env) (m : Msg) (s s0 : State)
    (ms : List (Env × Msg))
    (hm : m.type = .ELECT_LEADER_THRESHOLD_EVENT)
    (hlow : ∀ em ∈ ms, em.2.type = .ELECT_BROADCAST_EVENT ∧ em.2.addr < s0.ownIP) :
    (s.latestReceivedIP ≤ s.ownIP → handle N env m s = (s, [.log_warning])) ∧
    (run N (reset s0).1 ms).1.interval_event = true ∧
    Effect.evtimer_del .interval_event ∉ (run N (reset s0).1 ms).2 ∧
    (run N (reset s0).1 ms).1.running = false ∧
    (run N (reset s0).1 ms).1.latestReceivedIP ≤ (run N (reset s0).1 ms).1.ownIP ∧
    handle N env m (run N (reset s0).1 ms).1 = ((run N (reset s0).1 ms).1, [.log_warning]) := by
  have h := run_lower_broadcasts N ms (reset s0).1 hlow rfl (le_refl _)
  obtain ⟨hr, ho, hl, hi, hd⟩ := h
  have hl' : (run N (reset s0).1 ms).1.latestReceivedIP ≤ (run N (reset s0).1 ms).1.ownIP := by
    rw [ho]; exact hl
  refine ⟨fun hle => handle_threshold_alone N env m s hm hle, ?_, hd, hr, hl', ?_⟩
  · rw [hi]; rfl
  · exact handle_threshold_alone N env m _ hm hl'

/-- C15 at a concrete input: own address 30, broadcasts 10 and 20. -/
theorem C15_degenerate_settle_is_noop_witness :
    handle 8 quietEnv (plainMsg .ELECT_LEADER_THRESHOLD_EVENT) (start 8 30) =
      (start 8 30, [.log_warning]) ∧
    (run 8 (reset (initial 8 30)).1
      [(quietEnv, broadcastMsg 10), (quietEnv, broadcastMsg 20)]).1.interval_event = true ∧
    handle 8 quietEnv (plainMsg .ELECT_LEADER_THRESHOLD_EVENT)
        (run 8 (reset (initial 8 30)).1
          [(quietEnv, broadcastMsg 10), (quietEnv, broadcastMsg 20)]).1 =
      ((run 8 (reset (initial 8 30)).1
          [(quietEnv, broadcastMsg 10), (quietEnv, broadcastMsg 20)]).1, [.log_warning]) :=
  have h := C15_degenerate_settle_is_noop 8 quietEnv (plainMsg .ELECT_LEADER_THRESHOLD_EVENT)
    (start 8 30) (initial 8 30) [(quietEnv, broadcastMsg 10), (quietEnv, broadcastMsg 20)] rfl
    (by
      intro em hem
      simp at hem
      rcases hem with rfl | rfl <;> exact ⟨rfl, by decide⟩)
  ⟨h.1 (by decide), h.2.1, h.2.2.2.2.2⟩


/-! ### The three-node election scenario -/

/-- C16 (counterexample): node Z (own address 30) that handles the broadcasts
of 10 and 20, in either order, and then the threshold event ends with
`latestReceivedIP = 20`, not 30. -/
theorem C16_highest_seen_on_Z_is_20 :
    (electionRun 8 30 10 20).1.latestReceivedIP = 20 ∧
    (electionRun 8 30 20 10).1.latestReceivedIP = 20 ∧
    (electionRun 8 30 10 20).1.latestReceivedIP ≠ 30 ∧
    (electionRun 8 30 20 10).1.latestReceivedIP ≠ 30 := by
  decide

theorem electionRun_X_20_30 (N : Nat) :
    electionRun N 10 20 30 =
      ({ start N 10 with
          gotNeverMessage := false, latestReceivedIP := 30, running := true,
          interval_event := false },
        [.evtimer_del .interval_event, .evtimer_del .leader_threshold_event,
          .evtimer_add_msg .leader_threshold_event, .msg_reply,
          .evtimer_del .interval_event, .evtimer_del .leader_threshold_event,
          .evtimer_add_msg .leader_threshold_event, .msg_reply, .coap_put_node 30 10]) := by
  simp [electionRun, run, handle, dispatch, start, reset, initial, startTimer, evtimer_del,
    evtimer_add_msg, broadcastMsg, plainMsg, needsReply, ipv6_addr_cmp, quietEnv]

theorem electionRun_X_30_20 (N : Nat) :
    electionRun N 10 30 20 =
      ({ start N 10 with
          gotNeverMessage := false, latestReceivedIP := 30, running := true,
          interval_event := false },
        [.evtimer_del .interval_event, .evtimer_del .leader_threshold_event,
          .evtimer_add_msg .leader_threshold_event, .msg_reply,
          .evtimer_del .interval_event, .msg_reply, .coap_put_node 30 10]) := by
  simp [electionRun, run, handle, dispatch, start, reset, initial, startTimer, evtimer_del,
    evtimer_add_msg, broadcastMsg, plainMsg, needsReply, ipv6_addr_cmp, quietEnv]

theorem electionRun_Y_10_30 (N : Nat) :
    electionRun N 20 10 30 =
      ({ start N 20 with
          gotNeverMessage := false, latestReceivedIP := 30, running := true,
          interval_event := false },
        [.evtimer_del .leader_threshold_event, .evtimer_add_msg .leader_threshold_event,
          .msg_reply, .evtimer_del .interval_event, .evtimer_del .leader_threshold_event,
          .evtimer_add_msg .leader_threshold_event, .msg_reply, .coap_put_node 30 20]) := by
  simp [electionRun, run, handle, dispatch, start, reset, initial, startTimer, evtimer_del,
    evtimer_add_msg, broadcastMsg, plainMsg, needsReply, ipv6_addr_cmp, quietEnv]

theorem electionRun_Y_30_10 (N : Nat) :
    electionRun N 20 30 10 =
      ({ start N 20 with
          gotNeverMessage := false, latestReceivedIP := 30, running := true,
          interval_event := false },
        [.evtimer_del .interval_event, .evtimer_del .leader_threshold_event,
          .evtimer_add_msg .leader_threshold_event, .msg_reply, .msg_reply,
          .coap_put_node 30 20]) := by
  simp [electionRun, run, handle, dispatch, start, reset, initial, startTimer, evtimer_del,
    evtimer_add_msg, broadcastMsg, plainMsg, needsReply, ipv6_addr_cmp, quietEnv]

theorem electionRun_Z_10_20 (N : Nat) :
    electionRun N 30 10 20 =
      ({ start N 30 with gotNeverMessage := false, latestReceivedIP := 20 },
        [.evtimer_del .leader_threshold_event, .evtimer_add_msg .leader_threshold_event,
          .msg_reply, .evtimer_del .leader_threshold_event,
          .evtimer_add_msg .leader_threshold_event, .msg_reply, .log_warning]) := by
  simp [electionRun, run, handle, dispatch, start, reset, initial, startTimer, evtimer_del,
    evtimer_add_msg, broadcastMsg, plainMsg, needsReply, ipv6_addr_cmp, quietEnv]

theorem electionRun_Z_20_10 (N : Nat) :
    electionRun N 30 20 10 =
      ({ start N 30 with gotNeverMessage := false, latestReceivedIP := 20 },
        [.evtimer_del .leader_threshold_event, .evtimer_add_msg .leader_threshold_event,
          .msg_reply, .msg_reply, .log_warning]) := by
  simp [electionRun, run, handle, dispatch, start, reset, initial, startTimer, evtimer_del,
    evtimer_add_msg, broadcastMsg, plainMsg, needsReply, ipv6_addr_cmp, quietEnv]

/-- C16 (amended): with roster capacity `N ≥ 2`, in the scenario X = 10,
Y = 20, Z = 30, whichever order the two peers' broadcasts arrive in: X and Y
end with `latestReceivedIP = 30`, send exactly one registration
(`coap_put_node(30, 10)`, `coap_put_node(30, 20)`) and are followers
(`running`, not `amITheBoss`); Z ends with `latestReceivedIP = 20` (the higher
of its two peers), only logs the warning at the threshold and stays
unsettled; after then handling the registrations of 10 and of 20, Z is leader
and settled with roster size 2 holding 10 at index 0 and 20 at index 1. -/
theorem C16_election_scenario (N : Nat) (hN : 2 ≤ N) :
    (electionRun N 10 20 30).1.latestReceivedIP = 30 ∧
    (electionRun N 10 30 20).1.latestReceivedIP = 30 ∧
    (electionRun N 10 20 30).2.filter (fun e => e matches .coap_put_node _ _)
      = [.coap_put_node 30 10] ∧
    (electionRun N 10 30 20).2.filter (fun e => e matches .coap_put_node _ _)
      = [.coap_put_node 30 10] ∧
    (electionRun N 10 20 30).1.running = true ∧ (electionRun N 10 20 30).1.amITheBoss = false ∧
    (electionRun N 10 30 20).1.running = true ∧ (electionRun N 10 30 20).1.amITheBoss = false ∧
    (electionRun N 20 10 30).1.latestReceivedIP = 30 ∧
    (electionRun N 20 30 10).1.latestReceivedIP = 30 ∧
    (electionRun N 20 10 30).2.filter (fun e => e matches .coap_put_node _ _)
      = [.coap_put_node 30 20] ∧
    (electionRun N 20 30 10).2.filter (fun e => e matches .coap_put_node _ _)
      = [.coap_put_node 30 20] ∧
    (electionRun N 20 10 30).1.running = true ∧ (electionRun N 20 10 30).1.amITheBoss = false ∧
    (electionRun N 20 30 10).1.running = true ∧ (electionRun N 20 30 10).1.amITheBoss = false ∧
    (electionRun N 30 10 20).1.latestReceivedIP = 20 ∧
    (electionRun N 30 20 10).1.latestReceivedIP = 20 ∧
    (electionRun N 30 10 20).2.filter (fun e => e matches .coap_put_node _ _) = [] ∧
    (electionRun N 30 20 10).2.filter (fun e => e matches .coap_put_node _ _) = [] ∧
    (electionRun N 30 10 20).1.running = false ∧ (electionRun N 30 20 10).1.running = false ∧
    (∀ s : State, s = (electionRun N 30 10 20).1 ∨ s = (electionRun N 30 20 10).1 →
      (run N s [(quietEnv, nodesMsg 10), (quietEnv, nodesMsg 20)]).1.amITheBoss = true ∧
      (run N s [(quietEnv, nodesMsg 10), (quietEnv, nodesMsg 20)]).1.running = true ∧
      (run N s [(quietEnv, nodesMsg 10), (quietEnv, nodesMsg 20)]).1.currentNumNodes = 2 ∧
      (run N s [(quietEnv, nodesMsg 10), (quietEnv, nodesMsg 20)]).1.nodes[0]? = some 10 ∧
      (run N s [(quietEnv, nodesMsg 10), (quietEnv, nodesMsg 20)]).1.nodes[1]? = some 20) := by
  rw [electionRun_X_20_30, electionRun_X_30_20, electionRun_Y_10_30, electionRun_Y_30_10,
    electionRun_Z_10_20, electionRun_Z_20_10]
  refine ⟨rfl, rfl, rfl, rfl, rfl, rfl, rfl, rfl, rfl, rfl, rfl, rfl, rfl, rfl, rfl, rfl,
    rfl, rfl, rfl, rfl, rfl, rfl, ?_⟩
  intro s hs
  have hs' : s = { start N 30 with gotNeverMessage := false, latestReceivedIP := 20 } := by
    rcases hs with rfl | rfl <;> rfl
  have hc : s.currentNumNodes = 0 := by rw [hs']; rfl
  have hl : s.nodes = List.replicate N 0 := by rw [hs']; rfl
  have h1 := handle_nodes_accept N quietEnv (nodesMsg 10) s rfl (by rw [hc]; omega)
  have h2 := handle_nodes_accept N quietEnv (nodesMsg 20) (handle N quietEnv (nodesMsg 10) s).1
    rfl (by rw [h1]; simp only [hc]; omega)
  rw [run_cons, run_cons, run_nil, h2, h1]
  refine ⟨rfl, rfl, ?_, ?_, ?_⟩
  · simp [hc]
  · simp [hc, hl, List.getElem?_set, nodesMsg]; omega
  · simp [hc, hl, List.getElem?_set, nodesMsg]; omega

/-- C16 (amended) at `N = 8`. -/
theorem C16_election_scenario_witness :
    (electionRun 8 10 20 30).1.latestReceivedIP = 30 ∧
    (electionRun 8 20 30 10).1.latestReceivedIP = 30 ∧
    (electionRun 8 30 10 20).1.latestReceivedIP = 20 ∧
    (run 8 (electionRun 8 30 10 20).1
      [(quietEnv, nodesMsg 10), (quietEnv, nodesMsg 20)]).1.currentNumNodes = 2 :=
  have h := C16_election_scenario 8 (by decide)
  ⟨h.1, h.2.2.2.2.2.2.2.2.2.1, h.2.2.2.2.2.2.2.2.2.2.2.2.2.2.2.2.1,
    (h.2.2.2.2.2.2.2.2.2.2.2.2.2.2.2.2.2.2.2.2.2.2 _ (Or.inl rfl)).2.2.1⟩


/-! ### A polling cycle -/

/-- A leader that still misses `vs.length` samples of its cycle receives them:
only the last one triggers the broadcast, which carries the fused estimate,
and the accumulator is cleared. -/
theorem run_sensor_cycle (N : Nat) (env : Env) (vs : List Int) (s : State)
    (hb : s.amITheBoss = true) (hne : vs ≠ [])
    (hlen : s.sensorsNumReceived + vs.length = s.currentNumNodes)
    (h8 : s.currentNumNodes < 256) :
    run N s (sensorEvents env vs) =
      ({ s with sensorsNumReceived := 0, sensorValue := 0 },
        List.replicate (vs.length - 1) .msg_reply ++
          [.broadcast_sensor (toUInt16 (vs.foldl fuseF32 s.sensorValue)), .msg_reply]) := by
  obtain ⟨ws, v, rfl⟩ : ∃ ws v, vs = ws ++ [v] :=
    ⟨vs.dropLast, vs.getLast hne, (List.dropLast_append_getLast hne).symm⟩
  simp only [List.length_append, List.length_singleton] at hlen
  have hpre := run_sensor_below N env ws s hb (by omega) h8
  have hlast := handle_sensor_last N env (sensorMsg v)
    { s with
      sensorsNumReceived := s.sensorsNumReceived + ws.length,
      sensorValue := ws.foldl fuseF32 s.sensorValue }
    rfl hb (by
      show (s.sensorsNumReceived + ws.length + 1) % 256 = s.currentNumNodes
      rw [← hlen, ← Nat.add_assoc]
      exact Nat.mod_eq_of_lt (by omega))
  have happ : sensorEvents env (ws ++ [v]) = sensorEvents env ws ++ [(env, sensorMsg v)] := by
    simp [sensorEvents]
  rw [happ, run_append, hpre, run_cons, run_nil, hlast]
  simp [sensorMsg]

/-- C17 (counterexample): leader Z (roster `[10, 20]`, cleared accumulator)
handles an interval tick with local reading 100 and then the peer values 100
and 100.  The recurrence of the claim over the three samples gives
`e_3 = 72100/4096`, integer part 17; the code broadcasts 100, because the
local reading is installed as the estimate instead of being fused. -/
theorem C17_local_reading_is_not_fused :
    leaderZ.amITheBoss = true ∧ leaderZ.currentNumNodes = 2 ∧
    leaderZ.nodes = [10, 20, 0, 0, 0, 0, 0, 0] ∧
    leaderZ.sensorsNumReceived = 0 ∧ leaderZ.sensorValue = 0 ∧
    (run 8 leaderZ
      [(readingEnv 100, plainMsg .ELECT_INTERVAL_EVENT), (quietEnv, sensorMsg 100),
        (quietEnv, sensorMsg 100)]).2 =
      [.coap_get_sensor 10, .coap_get_sensor 20, .evtimer_del .interval_event,
        .evtimer_add_msg .interval_event, .msg_reply, .broadcast_sensor (some 100),
        .msg_reply] ∧
    ewmaExact [100, 100, 100] = 72100 / 4096 ∧
    toUInt16 (ewmaExact [100, 100, 100]) = some 17 ∧
    toUInt16 (ewmaF32 [100, 100, 100]) = some 17 := by
  refine ⟨?_, ?_, ?_, ?_, ?_, ?_, ?_, ?_, ?_⟩ <;> decide!

/-- C17 (amended): a leader with roster size 2 and received count 0 handles
an interval tick whose two fetches are issued successfully, then two sensor
events.  The tick installs the local reading (converted to `float`) as the
running estimate and issues the fetches to roster entries 0 and 1 in order;
the first sensor event only replies; the second emits the single
`broadcast_sensor`, carrying the `(uint16_t)` cast of
`fuseF32 (fuseF32 (fl s) vX) vY`, i.e. the two peer values fused into the
local reading as starting estimate, and the accumulator is cleared. -/
theorem C17_aggregation_scenario (N : Nat) (env e2 e3 : Env) (m : Msg) (s : State)
    (vX vY : Int)
    (hm : m.type = .ELECT_INTERVAL_EVENT) (hb : s.amITheBoss = true)
    (hk : s.currentNumNodes = 2) (hc : s.sensorsNumReceived = 0)
    (h0 : env.coap_get_sensor 0 = 0) (h1 : env.coap_get_sensor 1 = 0) :
    handle N env m s =
      ({ s with sensorValue := floatOfInt env.sensor_read, interval_event := true },
        [.coap_get_sensor (s.nodes.getD 0 0), .coap_get_sensor (s.nodes.getD 1 0),
          .evtimer_del .interval_event, .evtimer_add_msg .interval_event]) ∧
    handle N e2 (sensorMsg vX) (handle N env m s).1 =
      ({ s with
          sensorValue := fuseF32 (floatOfInt env.sensor_read) vX,
          sensorsNumReceived := 1, interval_event := true },
        [.msg_reply]) ∧
    handle N e3 (sensorMsg vY) (handle N e2 (sensorMsg vX) (handle N env m s).1).1 =
      ({ s with sensorValue := 0, sensorsNumReceived := 0, interval_event := true },
        [.broadcast_sensor
            (toUInt16 (fuseF32 (fuseF32 (floatOfInt env.sensor_read) vX) vY)),
          .msg_reply]) := by
  have hi : handle N env m s =
      ({ s with sensorValue := floatOfInt env.sensor_read, interval_event := true },
        [.coap_get_sensor (s.nodes.getD 0 0), .coap_get_sensor (s.nodes.getD 1 0),
          .evtimer_del .interval_event, .evtimer_add_msg .interval_event]) := by
    have hp := pollNodes_all_ok env s.currentNumNodes 0
      { s with sensorValue := floatOfInt env.sensor_read }
      (by
        intro k hk'
        rw [hk] at hk'
        rw [Nat.zero_add]
        rcases Nat.lt_succ_iff_lt_or_eq.mp hk' with h | h
        · have : k = 0 := by omega
          rw [this]; exact h0
        · rw [h]; exact h1)
    rw [handle_interval_leader N env m s hm hb, hp, hk]
    rfl
  have hs2 : handle N e2 (sensorMsg vX)
      { s with sensorValue := floatOfInt env.sensor_read, interval_event := true } =
      ({ s with
          sensorValue := fuseF32 (floatOfInt env.sensor_read) vX,
          sensorsNumReceived := 1, interval_event := true },
        [.msg_reply]) := by
    rw [handle_sensor_more N e2 (sensorMsg vX)
      { s with sensorValue := floatOfInt env.sensor_read, interval_event := true } rfl hb (by
      show (s.sensorsNumReceived + 1) % 256 ≠ s.currentNumNodes
      rw [hc, hk]; decide)]
    simp [hc, sensorMsg]
  have hs3 : handle N e3 (sensorMsg vY)
      { s with
        sensorValue := fuseF32 (floatOfInt env.sensor_read) vX,
        sensorsNumReceived := 1, interval_event := true } =
      ({ s with sensorValue := 0, sensorsNumReceived := 0, interval_event := true },
        [.broadcast_sensor
            (toUInt16 (fuseF32 (fuseF32 (floatOfInt env.sensor_read) vX) vY)),
          .msg_reply]) := by
    rw [handle_sensor_last N e3 (sensorMsg vY)
      { s with
        sensorValue := fuseF32 (floatOfInt env.sensor_read) vX,
        sensorsNumReceived := 1, interval_event := true } rfl hb (by
      show (1 + 1) % 256 = s.currentNumNodes
      rw [hk])]
    simp [sensorMsg]
  rw [hi, hs2, hs3]
  exact ⟨rfl, rfl, rfl⟩

/-- C17 (amended) at a concrete input: leader Z, local reading 100, peer
values 100 and 100. -/
theorem C17_aggregation_scenario_witness :
    (handle 8 (readingEnv 100) (plainMsg .ELECT_INTERVAL_EVENT) leaderZ).2 =
      [.coap_get_sensor (leaderZ.nodes.getD 0 0), .coap_get_sensor (leaderZ.nodes.getD 1 0),
        .evtimer_del .interval_event, .evtimer_add_msg .interval_event] ∧
    (handle 8 quietEnv (sensorMsg 100)
      (handle 8 quietEnv (sensorMsg 100)
        (handle 8 (readingEnv 100) (plainMsg .ELECT_INTERVAL_EVENT) leaderZ).1).1).2 =
      [.broadcast_sensor
          (toUInt16 (fuseF32 (fuseF32 (floatOfInt (readingEnv 100).sensor_read) 100) 100)),
        .msg_reply] :=
  have h := C17_aggregation_scenario 8 (readingEnv 100) quietEnv quietEnv
    (plainMsg .ELECT_INTERVAL_EVENT) leaderZ 100 100 rfl (by decide) (by decide) (by decide)
    rfl rfl
  ⟨by rw [h.1], by rw [h.2.2]⟩


/-! ### Frame conditions and invariants -/

theorem startTimer_flags (t : EventType) (s : State) :
    (startTimer t s).1.amITheBoss = s.amITheBoss ∧ (startTimer t s).1.running = s.running ∧
      (startTimer t s).1.currentNumNodes = s.currentNumNodes ∧
      (startTimer t s).1.sensorsNumReceived = s.sensorsNumReceived ∧
      (startTimer t s).1.nodes = s.nodes := by
  cases t <;> exact ⟨rfl, rfl, rfl, rfl, rfl⟩

/-- The polling loop ends in the state it started in, or `reset()` ran. -/
theorem pollNodes_same_or_reset (env : Env) (n : Nat) :
    ∀ (i : Nat) (s : State),
      (pollNodes env n i s).1 = s ∨
        ((pollNodes env n i s).1 = (reset s).1 ∧
          Effect.enter_reset ∈ (pollNodes env n i s).2) := by
  induction n with
  | zero => intro i s; left; rfl
  | succ n ih =>
      intro i s
      by_cases h : env.coap_get_sensor i = 0
      · rw [pollNodes_succ_ok env n i s h]
        rcases ih (i + 1) s with h' | ⟨h', hmem⟩
        · left; exact h'
        · right; exact ⟨h', List.mem_cons_of_mem _ hmem⟩
      · rw [pollNodes_succ_fail env n i s h]
        right
        exact ⟨rfl, List.mem_cons_of_mem _ (by rw [reset_effects]; simp)⟩

/-- What the `switch` can do to the role flags, the roster and the received
count: (a) `reset()` ran; (b) nothing but possibly setting `running`; (c) a
registration was accepted; (d) a leader counted a sample. -/
theorem dispatch_flags_cases (N : Nat) (env : Env) (m : Msg) (s : State) :
    (Effect.enter_reset ∈ (dispatch N env m s).2 ∧
      (dispatch N env m s).1.amITheBoss = false ∧ (dispatch N env m s).1.running = false ∧
      (dispatch N env m s).1.currentNumNodes = 0 ∧
      (dispatch N env m s).1.sensorsNumReceived = 0 ∧
      (dispatch N env m s).1.nodes = s.nodes) ∨
    ((dispatch N env m s).1.amITheBoss = s.amITheBoss ∧
      ((dispatch N env m s).1.running = s.running ∨ (dispatch N env m s).1.running = true) ∧
      (dispatch N env m s).1.currentNumNodes = s.currentNumNodes ∧
      (dispatch N env m s).1.sensorsNumReceived = s.sensorsNumReceived ∧
      (dispatch N env m s).1.nodes = s.nodes) ∨
    (m.type = .ELECT_NODES_EVENT ∧ s.currentNumNodes < N ∧
      (dispatch N env m s).1.amITheBoss = true ∧ (dispatch N env m s).1.running = true ∧
      (dispatch N env m s).1.currentNumNodes = (s.currentNumNodes + 1) % 256 ∧
      (dispatch N env m s).1.sensorsNumReceived = s.sensorsNumReceived ∧
      (dispatch N env m s).1.nodes = s.nodes.set s.currentNumNodes m.addr) ∨
    (m.type = .ELECT_SENSOR_EVENT ∧ s.amITheBoss = true ∧
      (dispatch N env m s).1.amITheBoss = true ∧ (dispatch N env m s).1.running = s.running ∧
      (dispatch N env m s).1.currentNumNodes = s.currentNumNodes ∧
      (dispatch N env m s).1.sensorsNumReceived =
        (if (s.sensorsNumReceived + 1) % 256 = s.currentNumNodes then 0
          else (s.sensorsNumReceived + 1) % 256) ∧
      (dispatch N env m s).1.nodes = s.nodes) := by
  by_cases hI : m.type = .ELECT_INTERVAL_EVENT
  · simp only [dispatch, hI]
    obtain ⟨f1, f2, f3, f4, f5⟩ := startTimer_flags .ELECT_INTERVAL_EVENT
      (if s.amITheBoss = true then
        pollNodes env s.currentNumNodes 0 { s with sensorValue := floatOfInt env.sensor_read }
      else (s, [Effect.broadcast_id s.ownIP])).1
    rw [f1, f2, f3, f4, f5]
    by_cases hb : s.amITheBoss = true
    · rw [if_pos hb]
      rcases pollNodes_same_or_reset env s.currentNumNodes 0
          { s with sensorValue := floatOfInt env.sensor_read } with h | ⟨h, hmem⟩
      · right; left
        rw [h]
        exact ⟨rfl, Or.inl rfl, rfl, rfl, rfl⟩
      · left
        rw [h]
        exact ⟨List.mem_append_left _ hmem, rfl, rfl, rfl, rfl, rfl⟩
    · rw [if_neg hb]
      right; left
      exact ⟨rfl, Or.inl rfl, rfl, rfl, rfl⟩
  by_cases hB : m.type = .ELECT_BROADCAST_EVENT
  · by_cases hr : s.running = true
    · left
      simp only [dispatch, hB]
      rw [if_pos hr]
      exact ⟨by rw [reset_effects]; simp, rfl, rfl, rfl, rfl, rfl⟩
    · have hr' : s.running = false := by simpa using hr
      right; left
      rw [dispatch_broadcast_unsettled N env m s hB hr']
      exact ⟨rfl, Or.inl rfl, rfl, rfl, rfl⟩
  by_cases hA : m.type = .ELECT_LEADER_ALIVE_EVENT
  · right; left
    simp only [dispatch, hA]
    obtain ⟨f1, f2, f3, f4, f5⟩ := startTimer_flags .ELECT_LEADER_TIMEOUT_EVENT s
    exact ⟨f1, Or.inl f2, f3, f4, f5⟩
  by_cases hT : m.type = .ELECT_LEADER_TIMEOUT_EVENT
  · left
    simp only [dispatch, hT]
    exact ⟨by rw [reset_effects]; simp, rfl, rfl, rfl, rfl, rfl⟩
  by_cases hN : m.type = .ELECT_NODES_EVENT
  · by_cases hc : s.currentNumNodes ≥ N
    · right; left
      simp only [dispatch, hN]
      rw [if_pos hc]
      exact ⟨rfl, Or.inl rfl, rfl, rfl, rfl⟩
    · right; right; left
      refine ⟨hN, Nat.lt_of_not_ge hc, ?_⟩
      simp only [dispatch, hN]
      rw [if_neg hc]
      obtain ⟨f1, f2, f3, f4, f5⟩ := startTimer_flags .ELECT_INTERVAL_EVENT
        { s with
          running := true, amITheBoss := true,
          nodes := s.nodes.set s.currentNumNodes m.addr,
          currentNumNodes := (s.currentNumNodes + 1) % 256 }
      exact ⟨f1, f2, f3, f4, f5⟩
  by_cases hS : m.type = .ELECT_SENSOR_EVENT
  · by_cases hb : s.amITheBoss = true
    · right; right; right
      refine ⟨hS, hb, ?_⟩
      simp only [dispatch, hS]
      rw [if_pos hb]
      by_cases hq : (s.sensorsNumReceived + 1) % 256 = s.currentNumNodes
      · rw [if_pos hq, if_pos hq]
        exact ⟨hb, rfl, rfl, rfl, rfl⟩
      · rw [if_neg hq, if_neg hq]
        exact ⟨hb, rfl, rfl, rfl, rfl⟩
    · right; left
      simp only [dispatch, hS]
      rw [if_neg hb]
      exact ⟨rfl, Or.inl rfl, rfl, rfl, rfl⟩
  by_cases hH : m.type = .ELECT_LEADER_THRESHOLD_EVENT
  · right; left
    simp only [dispatch, hH]
    by_cases hlt : ipv6_addr_cmp s.ownIP s.latestReceivedIP < 0
    · rw [if_pos hlt]
      exact ⟨rfl, Or.inr rfl, rfl, rfl, rfl⟩
    · rw [if_neg hlt]
      exact ⟨rfl, Or.inl rfl, rfl, rfl, rfl⟩
  · right; left
    cases hty : m.type with
    | unknown c => simp [dispatch, hty]
    | _ => simp_all

/-- The same case distinction for one whole loop iteration. -/
theorem handle_flags_cases (N : Nat) (env : Env) (m : Msg) (s : State) :
    (Effect.enter_reset ∈ (handle N env m s).2 ∧
      (handle N env m s).1.amITheBoss = false ∧ (handle N env m s).1.running = false ∧
      (handle N env m s).1.currentNumNodes = 0 ∧
      (handle N env m s).1.sensorsNumReceived = 0 ∧
      (handle N env m s).1.nodes = s.nodes) ∨
    ((handle N env m s).1.amITheBoss = s.amITheBoss ∧
      ((handle N env m s).1.running = s.running ∨ (handle N env m s).1.running = true) ∧
      (handle N env m s).1.currentNumNodes = s.currentNumNodes ∧
      (handle N env m s).1.sensorsNumReceived = s.sensorsNumReceived ∧
      (handle N env m s).1.nodes = s.nodes) ∨
    (m.type = .ELECT_NODES_EVENT ∧ s.currentNumNodes < N ∧
      (handle N env m s).1.amITheBoss = true ∧ (handle N env m s).1.running = true ∧
      (handle N env m s).1.currentNumNodes = (s.currentNumNodes + 1) % 256 ∧
      (handle N env m s).1.sensorsNumReceived = s.sensorsNumReceived ∧
      (handle N env m s).1.nodes = s.nodes.set s.currentNumNodes m.addr) ∨
    (m.type = .ELECT_SENSOR_EVENT ∧ s.amITheBoss = true ∧
      (handle N env m s).1.amITheBoss = true ∧ (handle N env m s).1.running = s.running ∧
      (handle N env m s).1.currentNumNodes = s.currentNumNodes ∧
      (handle N env m s).1.sensorsNumReceived =
        (if (s.sensorsNumReceived + 1) % 256 = s.currentNumNodes then 0
          else (s.sensorsNumReceived + 1) % 256) ∧
      (handle N env m s).1.nodes = s.nodes) := by
  rw [handle_fst]
  rcases dispatch_flags_cases N env m s with ⟨hmem, h⟩ | h | h | h
  · left
    exact ⟨List.mem_append_left _ hmem, h⟩
  · right; left; exact h
  · right; right; left; exact h
  · right; right; right; exact h


/-- C18: with roster capacity `N ≤ 255` (the size counter is a `uint8_t`) and
the array of `N` cells, a registration handled in a state with roster size
`n < N` leaves the entries `0 .. n-1` as they are, stores the received
address at index `n`, makes the size `n + 1`, sets `amITheBoss` and
`running`, and deletes and re-adds the interval timer; and whatever event is
handled without a call of `reset()`, every existing roster entry keeps its
value and the roster size does not decrease. -/
theorem C18_roster_append_only (N : Nat) (env : Env) (m : Msg) (s : State)
    (hN : N ≤ 255) (hlen : s.nodes.length = N) :
    (m.type = .ELECT_NODES_EVENT → s.currentNumNodes < N →
      (∀ i, i < s.currentNumNodes → (handle N env m s).1.nodes[i]? = s.nodes[i]?) ∧
      (handle N env m s).1.nodes[s.currentNumNodes]? = some m.addr ∧
      (handle N env m s).1.currentNumNodes = s.currentNumNodes + 1 ∧
      (handle N env m s).1.amITheBoss = true ∧ (handle N env m s).1.running = true ∧
      (handle N env m s).1.interval_event = true ∧
      (handle N env m s).2 =
        [.evtimer_del .interval_event, .evtimer_add_msg .interval_event, .msg_reply]) ∧
    (Effect.enter_reset ∉ (handle N env m s).2 →
      (∀ i, i < s.currentNumNodes → (handle N env m s).1.nodes[i]? = s.nodes[i]?) ∧
      s.currentNumNodes ≤ (handle N env m s).1.currentNumNodes) := by
  constructor
  · intro hm hn
    rw [handle_nodes_accept N env m s hm hn]
    refine ⟨?_, ?_, Nat.mod_eq_of_lt (by omega), rfl, rfl, rfl, rfl⟩
    · intro i hi
      show (s.nodes.set s.currentNumNodes m.addr)[i]? = s.nodes[i]?
      rw [List.getElem?_set_ne (by omega)]
    · show (s.nodes.set s.currentNumNodes m.addr)[s.currentNumNodes]? = some m.addr
      simp [List.getElem?_set, hlen, hn]
  · intro hno
    rcases handle_flags_cases N env m s with ⟨hmem, _⟩ | ⟨_, _, hc, _, hn⟩ |
      ⟨_, hlt, _, _, hc, _, hn⟩ | ⟨_, _, _, _, hc, _, hn⟩
    · exact absurd hmem hno
    · rw [hn, hc]; exact ⟨fun _ _ => rfl, le_refl _⟩
    · rw [hn, hc]
      refine ⟨?_, ?_⟩
      · intro i hi
        rw [List.getElem?_set_ne (by omega)]
      · rw [Nat.mod_eq_of_lt (by omega)]; omega
    · rw [hn, hc]; exact ⟨fun _ _ => rfl, le_refl _⟩

/-- C18 at a concrete input: the leader with roster 1, 2, 3 (`N = 8`)
receives the registration of 4. -/
theorem C18_roster_append_only_witness :
    ((∀ i, i < leaderOfThree.currentNumNodes →
        (handle 8 quietEnv (nodesMsg 4) leaderOfThree).1.nodes[i]? = leaderOfThree.nodes[i]?) ∧
      (handle 8 quietEnv (nodesMsg 4) leaderOfThree).1.nodes[leaderOfThree.currentNumNodes]?
        = some (nodesMsg 4).addr ∧
      (handle 8 quietEnv (nodesMsg 4) leaderOfThree).1.currentNumNodes
        = leaderOfThree.currentNumNodes + 1 ∧
      (handle 8 quietEnv (nodesMsg 4) leaderOfThree).1.amITheBoss = true ∧
      (handle 8 quietEnv (nodesMsg 4) leaderOfThree).1.running = true ∧
      (handle 8 quietEnv (nodesMsg 4) leaderOfThree).1.interval_event = true ∧
      (handle 8 quietEnv (nodesMsg 4) leaderOfThree).2 =
        [.evtimer_del .interval_event, .evtimer_add_msg .interval_event, .msg_reply]) ∧
    leaderOfThree.currentNumNodes
      ≤ (handle 8 quietEnv (sensorMsg 5) leaderOfThree).1.currentNumNodes :=
  ⟨(C18_roster_append_only 8 quietEnv (nodesMsg 4) leaderOfThree (by decide) (by decide)).1
      rfl (by decide),
    ((C18_roster_append_only 8 quietEnv (sensorMsg 5) leaderOfThree (by decide) (by decide)).2
      (by decide!)).2⟩

/-- One loop iteration keeps: roster size at most `N`, received count at most
the roster size, and for a leader a count below the roster size and
`running` set. -/
theorem handle_invariant (N : Nat) (hN : N ≤ 255) (env : Env) (m : Msg) (s : State)
    (h1 : s.currentNumNodes ≤ N) (h2 : s.sensorsNumReceived ≤ s.currentNumNodes)
    (h3 : s.amITheBoss = true → s.sensorsNumReceived < s.currentNumNodes ∧ s.running = true) :
    (handle N env m s).1.currentNumNodes ≤ N ∧
    (handle N env m s).1.sensorsNumReceived ≤ (handle N env m s).1.currentNumNodes ∧
    ((handle N env m s).1.amITheBoss = true →
      (handle N env m s).1.sensorsNumReceived < (handle N env m s).1.currentNumNodes ∧
        (handle N env m s).1.running = true) := by
  rcases handle_flags_cases N env m s with ⟨_, hb, hr, hc, hq, _⟩ | ⟨hb, hr, hc, hq, _⟩ |
    ⟨_, hlt, hb, hr, hc, hq, _⟩ | ⟨_, hbs, hb, hr, hc, hq, _⟩
  · rw [hb, hc, hq]
    exact ⟨Nat.zero_le N, le_refl 0, fun h => absurd h (by decide)⟩
  · rw [hb, hc, hq]
    refine ⟨h1, h2, fun h => ⟨(h3 h).1, ?_⟩⟩
    rcases hr with hr | hr
    · rw [hr]; exact (h3 h).2
    · exact hr
  · have hmod : (s.currentNumNodes + 1) % 256 = s.currentNumNodes + 1 :=
      Nat.mod_eq_of_lt (by omega)
    rw [hc, hq, hmod]
    exact ⟨hlt, by omega, fun _ => ⟨by omega, hr⟩⟩
  · have hlt := (h3 hbs).1
    have hmod : (s.sensorsNumReceived + 1) % 256 = s.sensorsNumReceived + 1 :=
      Nat.mod_eq_of_lt (by omega)
    rw [hc, hq, hr, hmod]
    refine ⟨h1, ?_, fun _ => ⟨?_, (h3 hbs).2⟩⟩
    · split <;> omega
    · split <;> omega

theorem run_invariant (N : Nat) (hN : N ≤ 255) (evs : List (Env × Msg)) :
    ∀ s : State, s.currentNumNodes ≤ N → s.sensorsNumReceived ≤ s.currentNumNodes →
      (s.amITheBoss = true → s.sensorsNumReceived < s.currentNumNodes ∧ s.running = true) →
      (run N s evs).1.currentNumNodes ≤ N ∧
      (run N s evs).1.sensorsNumReceived ≤ (run N s evs).1.currentNumNodes ∧
      ((run N s evs).1.amITheBoss = true →
        (run N s evs).1.sensorsNumReceived < (run N s evs).1.currentNumNodes ∧
          (run N s evs).1.running = true) := by
  induction evs with
  | nil => intro s h1 h2 h3; exact ⟨h1, h2, h3⟩
  | cons em rest ih =>
      intro s h1 h2 h3
      obtain ⟨g1, g2, g3⟩ := handle_invariant N hN em.1 em.2 s h1 h2 h3
      rw [run_cons]
      exact ih (handle N em.1 em.2 s).1 g1 g2 g3

/-- C19: with roster capacity `N ≤ 255`, in every state reached from `reset()`
by a finite sequence of events, whatever the environment answers,
`amITheBoss = true` implies `running = true` and roster size at least 1; so a
node that is unsettled or has an empty roster is not leader. -/
theorem C19_leader_well_formed (N : Nat) (hN : N ≤ 255) (s0 : State)
    (evs : List (Env × Msg)) :
    ((run N (reset s0).1 evs).1.amITheBoss = true →
      (run N (reset s0).1 evs).1.running = true ∧
        1 ≤ (run N (reset s0).1 evs).1.currentNumNodes) ∧
    ((run N (reset s0).1 evs).1.running = false ∨
        (run N (reset s0).1 evs).1.currentNumNodes = 0 →
      (run N (reset s0).1 evs).1.amITheBoss = false) := by
  have h := run_invariant N hN evs (reset s0).1 (Nat.zero_le N) (le_refl 0)
    (fun hb => absurd (show false = true from hb) (by decide))
  have key : (run N (reset s0).1 evs).1.amITheBoss = true →
      (run N (reset s0).1 evs).1.running = true ∧
        1 ≤ (run N (reset s0).1 evs).1.currentNumNodes := by
    intro hb
    obtain ⟨hlt, hr⟩ := h.2.2 hb
    exact ⟨hr, by omega⟩
  refine ⟨key, ?_⟩
  intro hor
  by_contra hne
  have hb : (run N (reset s0).1 evs).1.amITheBoss = true := by simpa using hne
  obtain ⟨hr, hc⟩ := key hb
  rcases hor with h' | h'
  · rw [hr] at h'; exact absurd h' (by decide)
  · omega

/-- C19 at a concrete input: `N = 8`, own address 10, one registration. -/
theorem C19_leader_well_formed_witness :
    (run 8 (reset (initial 8 10)).1 [(quietEnv, nodesMsg 5)]).1.running = true ∧
      1 ≤ (run 8 (reset (initial 8 10)).1 [(quietEnv, nodesMsg 5)]).1.currentNumNodes :=
  (C19_leader_well_formed 8 (by decide) (initial 8 10) [(quietEnv, nodesMsg 5)]).1 (by decide)

/-- C20: with `N ≤ 255`, in every state reached from `reset()` by a finite
sequence of events the received count is at most the roster size, and below
it when the node is leader.  Hence in a leader state the increment
`sensorsNumReceived++` does not wrap, and handling `currentNumNodes -
sensorsNumReceived` (between 1 and `currentNumNodes`) consecutive sensor
events replies to all of them and emits `broadcast_sensor` exactly once, on
the last. -/
theorem C20_sample_counter_below_roster_size (N : Nat) (hN : N ≤ 255) (s0 : State)
    (evs : List (Env × Msg)) :
    (run N (reset s0).1 evs).1.sensorsNumReceived ≤ (run N (reset s0).1 evs).1.currentNumNodes ∧
    ((run N (reset s0).1 evs).1.amITheBoss = true →
      (run N (reset s0).1 evs).1.sensorsNumReceived
        < (run N (reset s0).1 evs).1.currentNumNodes ∧
      ((run N (reset s0).1 evs).1.sensorsNumReceived + 1) % 256
        = (run N (reset s0).1 evs).1.sensorsNumReceived + 1 ∧
      1 ≤ (run N (reset s0).1 evs).1.currentNumNodes
        - (run N (reset s0).1 evs).1.sensorsNumReceived ∧
      (run N (reset s0).1 evs).1.currentNumNodes
        - (run N (reset s0).1 evs).1.sensorsNumReceived
        ≤ (run N (reset s0).1 evs).1.currentNumNodes ∧
      ∀ (env : Env) (vs : List Int),
        vs.length = (run N (reset s0).1 evs).1.currentNumNodes
          - (run N (reset s0).1 evs).1.sensorsNumReceived →
        (run N (run N (reset s0).1 evs).1 (sensorEvents env vs)).2 =
          List.replicate (vs.length - 1) .msg_reply ++
            [.broadcast_sensor
                (toUInt16 (vs.foldl fuseF32 (run N (reset s0).1 evs).1.sensorValue)),
              .msg_reply]) := by
  have h := run_invariant N hN evs (reset s0).1 (Nat.zero_le N) (le_refl 0)
    (fun hb => absurd (show false = true from hb) (by decide))
  refine ⟨h.2.1, ?_⟩
  intro hb
  obtain ⟨hlt, _⟩ := h.2.2 hb
  have hle := h.1
  refine ⟨hlt, Nat.mod_eq_of_lt (by omega), by omega, Nat.sub_le _ _, ?_⟩
  intro env vs hvs
  have hne : vs ≠ [] := by
    intro h0
    rw [h0] at hvs
    simp at hvs
    omega
  rw [run_sensor_cycle N env vs (run N (reset s0).1 evs).1 hb hne (by omega) (by omega)]

/-- C20 at a concrete input: the leader with roster 1, 2, 3 after one sample
has count 1 < 3 and broadcasts on the second of two further samples. -/
theorem C20_sample_counter_below_roster_size_witness :
    (run 8 (reset (initial 8 10)).1
      [(quietEnv, nodesMsg 1), (quietEnv, nodesMsg 2), (quietEnv, nodesMsg 3),
        (quietEnv, sensorMsg 7)]).1.sensorsNumReceived <
      (run 8 (reset (initial 8 10)).1
        [(quietEnv, nodesMsg 1), (quietEnv, nodesMsg 2), (quietEnv, nodesMsg 3),
          (quietEnv, sensorMsg 7)]).1.currentNumNodes ∧
    (run 8
      (run 8 (reset (initial 8 10)).1
        [(quietEnv, nodesMsg 1), (quietEnv, nodesMsg 2), (quietEnv, nodesMsg 3),
          (quietEnv, sensorMsg 7)]).1
      (sensorEvents quietEnv [8, 9])).2 =
      List.replicate ([8, 9].length - 1) .msg_reply ++
        [.broadcast_sensor
            (toUInt16 (([8, 9] : List Int).foldl fuseF32
              (run 8 (reset (initial 8 10)).1
                [(quietEnv, nodesMsg 1), (quietEnv, nodesMsg 2), (quietEnv, nodesMsg 3),
                  (quietEnv, sensorMsg 7)]).1.sensorValue)),
          .msg_reply] :=
  have h := (C20_sample_counter_below_roster_size 8 (by decide) (initial 8 10)
    [(quietEnv, nodesMsg 1), (quietEnv, nodesMsg 2), (quietEnv, nodesMsg 3),
      (quietEnv, sensorMsg 7)]).2 (by decide)
  ⟨h.1, h.2.2.2.2 quietEnv [8, 9] (by decide)⟩

end Elect
